import Mathlib

/-!
# Render-pass orchestration of `renderingEngine.cpp`

A shallow embedding of `RenderingEngine::RenderingEngine`, `ApplyFilter`,
`BlurShadowMap` and `Render` (file `src/renderingEngine.cpp`), followed by the
properties of the pass sequence, of the GPU state and of the camera
substitution.

Conventions of the embedding

* `float` values are exact rationals (`ℚ`); rounding is not modelled.
* `int` values are integers in the 32-bit range; the two `int` computations of
  the file (`tier - 1` and `1 << (i + 1)`) wrap modulo `2 ^ 32`.
* `assert` is active: a failed assertion stops the run (`Fault.assertion`).
* Every call to OpenGL, to a render target, a shader, the quad mesh, the scene
  object or a uniform setter is recorded in a chronological trace together with
  the engine state at the moment of the call, and so is every entry into
  `ApplyFilter`. The callbacks of the collaborators are assumed not to change
  the engine or the GPU state. The accessors of the auxiliary camera, which the
  engine owns, are reads and writes of its fields.
* `NUM_SHADOW_MAPS` and `Camera::GetViewProjection` are declared outside the
  file; they are parameters `N` and `vp` of the embedding. `m_lights` is never
  written by the file and is passed to `Render` as an argument.
-/

namespace Engine3D

/-! ## Machine integers -/

/-- Values of the C++ type `int`. -/
abbrev CInt : Type := { x : Int // -2147483648 ≤ x ∧ x ≤ 2147483647 }

/-- Reduction of an integer result to the range of `int` (two's complement). -/
def wrapInt (x : Int) : Int := (x + 2147483648) % 4294967296 - 2147483648

/-! ## Math primitives -/

/-- Three `float` components. -/
structure Vector3f where
  x : ℚ
  y : ℚ
  z : ℚ
deriving DecidableEq

/-- A rotation value: either four stored components, or the arguments of the
constructor call `Quaternion(axis, ToRadians(degrees))`, kept symbolically
(no trigonometry is evaluated). -/
inductive Quaternion where
  | mk (x y z w : ℚ)
  | axisAngle (axis : Vector3f) (degrees : ℚ)
deriving DecidableEq

/-- A 4x4 matrix of `float`, indexed row then column. -/
abbrev Matrix4f : Type := Matrix (Fin 4) (Fin 4) ℚ

/-- Modelled from the spec: `Matrix4f::InitIdentity` (math header, not in
`src/`), the identity transform. -/
def Matrix4f.InitIdentity : Matrix4f := 1

/-- Modelled from the spec: `Matrix4f::InitScale` (math header, not in `src/`),
the scale transform `Scale(x, y, z)`: the three factors on the diagonal. -/
def Matrix4f.InitScale (r : Vector3f) : Matrix4f :=
  !![r.x, 0, 0, 0;
     0, r.y, 0, 0;
     0, 0, r.z, 0;
     0, 0, 0, 1]

/-- Modelled from the spec: `Matrix4f::InitTranslation` (math header, not in
`src/`), the transform `Translate(x, y, z)`; the source comment places the
translation in the `w` column. -/
def Matrix4f.InitTranslation (r : Vector3f) : Matrix4f :=
  !![1, 0, 0, r.x;
     0, 1, 0, r.y;
     0, 0, 1, r.z;
     0, 0, 0, 1]

/-- Modelled from the spec: `Matrix4f::operator*` (math header, not in `src/`),
the matrix product. -/
def Matrix4f.mul (a b : Matrix4f) : Matrix4f := a * b

/-- Modelled from the spec: application of a matrix to the homogeneous point
`(x, y, z, 1)`, keeping the first three components (math header, not in
`src/`). -/
def Matrix4f.Transform (m : Matrix4f) (r : Vector3f) : Vector3f :=
  { x := m 0 0 * r.x + m 0 1 * r.y + m 0 2 * r.z + m 0 3
    y := m 1 0 * r.x + m 1 1 * r.y + m 1 2 * r.z + m 1 3
    z := m 2 0 * r.x + m 2 1 * r.y + m 2 2 * r.z + m 2 3 }

/-- Line 9: `BIAS_MATRIX = InitScale(0.5, 0.5, 0.5) * InitTranslation(1, 1, 1)`. -/
def BIAS_MATRIX : Matrix4f :=
  Matrix4f.mul (Matrix4f.InitScale ⟨1 / 2, 1 / 2, 1 / 2⟩)
    (Matrix4f.InitTranslation ⟨1, 1, 1⟩)

/-! ## Collaborator data -/

/-- Identity of the GPU image behind a `Texture` handle, named after the place
that allocates it. `null` is the handle `0` ("no texture"). -/
inductive TextureId where
  | null
  | tempTarget
  | shadowMap (i : Nat)
  | shadowMapTempTarget (i : Nat)
  | scene (n : Nat)
deriving DecidableEq

/-- A texture handle with the dimensions it was created with. -/
structure Texture where
  id : TextureId
  width : Int
  height : Int
deriving DecidableEq

/-- The texture `0`: when used as a destination it stands for the window. -/
def Texture.null : Texture := ⟨TextureId.null, 0, 0⟩

/-- The window: only its dimensions are read. -/
structure Window where
  width : Int
  height : Int
deriving DecidableEq

/-- The shader objects: the four owned by the engine, and the shaders owned by
lights (distinct objects, told apart by a number). -/
inductive Shader where
  | m_defaultShader
  | m_shadowMapShader
  | m_nullFilter
  | m_gausBlurFilter
  | ofLight (n : Nat)
deriving DecidableEq

/-- A camera: projection, and position and rotation of its transform. -/
structure Camera where
  projection : Matrix4f
  pos : Vector3f
  rot : Quaternion

/-- The value of a `const Camera*`: the engine's auxiliary camera, or a camera
of the scene (its address and its content, which the engine cannot write). -/
inductive CameraRef where
  | m_altCamera
  | scene (addr : Nat) (cam : Camera)

/-- Result of `BaseLight::CalcShadowCameraTransform`. -/
structure ShadowCameraTransform where
  pos : Vector3f
  rot : Quaternion

/-- Shadow configuration of a light (`ShadowInfo`). -/
structure ShadowInfo where
  shadowMapSizeAsPowerOf2 : CInt
  projection : Matrix4f
  shadowSoftness : ℚ
  minVariance : ℚ
  lightBleedReductionAmount : ℚ
  flipFaces : Bool

/-- A light: its shader object, its shadow configuration and its
`CalcShadowCameraTransform` method. -/
structure BaseLight where
  shader : Nat
  shadowInfo : ShadowInfo
  CalcShadowCameraTransform : Vector3f → Quaternion → ShadowCameraTransform

/-- The scene object handed to `Render`; only its identity is used. -/
structure GameObject where
  id : Nat
deriving DecidableEq

/-! ## GPU state -/

/-- Argument of `glCullFace`. -/
inductive Face where
  | GL_FRONT
  | GL_BACK
deriving DecidableEq

/-- Argument of `glFrontFace`. -/
inductive Winding where
  | GL_CW
  | GL_CCW
deriving DecidableEq

/-- Argument of `glDepthFunc`. -/
inductive DepthFunc where
  | GL_LESS
  | GL_EQUAL
deriving DecidableEq

/-- Argument of `glBlendFunc`. -/
inductive BlendFactor where
  | GL_ZERO
  | GL_ONE
deriving DecidableEq

/-- Argument of `glEnable` and `glDisable`. -/
inductive Capability where
  | GL_CULL_FACE
  | GL_DEPTH_TEST
  | GL_DEPTH_CLAMP
  | GL_BLEND
deriving DecidableEq

/-- The bound draw destination. -/
inductive RenderTarget where
  | window
  | texture (t : Texture)
deriving DecidableEq

/-- The part of the OpenGL state that the file reads or writes. -/
structure GLState where
  renderTarget : RenderTarget
  clearColor : ℚ × ℚ × ℚ × ℚ
  frontFace : Winding
  cullFace : Face
  cullFaceEnabled : Bool
  depthTestEnabled : Bool
  depthClampEnabled : Bool
  blendEnabled : Bool
  blendSrc : BlendFactor
  blendDst : BlendFactor
  depthMask : Bool
  depthFunc : DepthFunc
deriving DecidableEq

/-- The calls that the trace records. `ApplyFilter` marks the entry into
`RenderingEngine::ApplyFilter`; the others leave the translation unit. -/
inductive Call where
  | Window_BindAsRenderTarget
  | Texture_BindAsRenderTarget (t : Texture)
  | glClearColor (r g b a : ℚ)
  | glClear (color depth : Bool)
  | glCullFace (mode : Face)
  | glEnable (cap : Capability)
  | glDisable (cap : Capability)
  | glBlendFunc (src dst : BlendFactor)
  | glDepthMask (flag : Bool)
  | glDepthFunc (f : DepthFunc)
  | SetTexture (name : String) (value : Texture)
  | SetVector3f (name : String) (value : Vector3f)
  | SetFloat (name : String) (value : ℚ)
  | RenderAll (object : GameObject) (shader : Shader)
  | Shader_Bind (shader : Shader)
  | Shader_UpdateUniforms (shader : Shader)
  | Mesh_Draw
  | ApplyFilter (filter : Shader) (source dest : Texture)
deriving DecidableEq

/-! ## Engine state -/

/-- The members of `RenderingEngine` that the file reads or writes, and the
OpenGL state. The quad mesh, its transform and its material are constants that
are only handed to collaborators and are left out. -/
structure RenderingEngine where
  gl : GLState
  m_samplerMap : String → Option Nat
  m_textureMap : String → Option Texture
  m_vector3fMap : String → Option Vector3f
  m_floatMap : String → Option ℚ
  m_tempTarget : Texture
  m_shadowMaps : List Texture
  m_shadowMapTempTargets : List Texture
  m_altCamera : Camera
  m_mainCamera : CameraRef
  m_activeLight : Option BaseLight
  m_lightMatrix : Matrix4f

/-- One entry of the trace: a call and the engine state when it is issued. -/
structure Event where
  call : Call
  state : RenderingEngine

/-- Why a run stopped early. -/
inductive Fault where
  | assertion
  | outOfBounds
deriving DecidableEq

/-- Outcome of running a piece of code: its result (or the fault that stopped
it), the state reached, and the calls issued, oldest first. -/
structure Run (α : Type) where
  result : Except Fault α
  state : RenderingEngine
  trace : List Event

/-- A piece of engine code: a function of the state it starts from. -/
def Exec (α : Type) : Type := RenderingEngine → Run α

/-- Code that returns `a` without doing anything. -/
@[simp]
def Exec.pure {α : Type} (a : α) : Exec α := fun s => ⟨Except.ok a, s, []⟩

/-- Sequencing: the second part runs only if the first one returned. -/
@[simp]
def Exec.bind {α β : Type} (m : Exec α) (f : α → Exec β) : Exec β := fun s =>
  match m s with
  | ⟨Except.ok a, s1, t1⟩ =>
    match f a s1 with
    | ⟨r, s2, t2⟩ => ⟨r, s2, t1 ++ t2⟩
  | ⟨Except.error e, s1, t1⟩ => ⟨Except.error e, s1, t1⟩

instance : Monad Exec where
  pure := Exec.pure
  bind := Exec.bind

/-- The run returned (no assertion failed, no array was read out of bounds). -/
def Run.returned {α : Type} (r : Run α) : Prop := r.result.isOk = true

instance {α : Type} (r : Run α) : Decidable r.returned :=
  inferInstanceAs (Decidable (r.result.isOk = true))

/-- Record a call together with the current state. -/
@[simp]
def call (c : Call) : Exec Unit := fun s => ⟨Except.ok (), s, [⟨c, s⟩]⟩

/-- Write engine members. -/
@[simp]
def modifyEngine (f : RenderingEngine → RenderingEngine) : Exec Unit :=
  fun s => ⟨Except.ok (), f s, []⟩

/-- Stop with a fault. -/
@[simp]
def fault {α : Type} (e : Fault) : Exec α := fun s => ⟨Except.error e, s, []⟩

/-- The C `assert`. -/
@[simp]
def assert (p : Prop) [Decidable p] : Exec Unit :=
  if p then Exec.pure () else fault Fault.assertion

/-- Read of a C array of textures at an `int` index; outside the array the
behaviour is undefined, which the embedding reports as `Fault.outOfBounds`. -/
def arrayRead (a : List Texture) (i : Int) : Exec Texture :=
  if 0 ≤ i then
    match a.get? i.toNat with
    | some t => Exec.pure t
    | none => fault Fault.outOfBounds
  else fault Fault.outOfBounds

/-! ## Collaborator calls -/

/-- The call `m_window->BindAsRenderTarget()`: the window becomes the draw
destination. -/
@[simp]
def Window.BindAsRenderTarget : Exec Unit := do
  call Call.Window_BindAsRenderTarget
  modifyEngine fun s => { s with gl := { s.gl with renderTarget := RenderTarget.window } }

/-- The call `t.BindAsRenderTarget()`: the texture becomes the draw
destination. -/
@[simp]
def Texture.BindAsRenderTarget (t : Texture) : Exec Unit := do
  call (Call.Texture_BindAsRenderTarget t)
  modifyEngine fun s => { s with gl := { s.gl with renderTarget := RenderTarget.texture t } }

/-- The OpenGL call `glClearColor`. -/
@[simp]
def glClearColor (r g b a : ℚ) : Exec Unit := do
  call (Call.glClearColor r g b a)
  modifyEngine fun s => { s with gl := { s.gl with clearColor := (r, g, b, a) } }

/-- The OpenGL call `glClear`; buffer contents are not part of the state. -/
@[simp]
def glClear (color depth : Bool) : Exec Unit :=
  call (Call.glClear color depth)

/-- The OpenGL call `glCullFace`. -/
@[simp]
def glCullFace (mode : Face) : Exec Unit := do
  call (Call.glCullFace mode)
  modifyEngine fun s => { s with gl := { s.gl with cullFace := mode } }

/-- Effect of `glEnable` / `glDisable` on the capability flags. -/
@[simp]
def GLState.setCapability (g : GLState) (cap : Capability) (flag : Bool) : GLState :=
  match cap with
  | Capability.GL_CULL_FACE => { g with cullFaceEnabled := flag }
  | Capability.GL_DEPTH_TEST => { g with depthTestEnabled := flag }
  | Capability.GL_DEPTH_CLAMP => { g with depthClampEnabled := flag }
  | Capability.GL_BLEND => { g with blendEnabled := flag }

/-- The OpenGL call `glEnable`. -/
@[simp]
def glEnable (cap : Capability) : Exec Unit := do
  call (Call.glEnable cap)
  modifyEngine fun s => { s with gl := s.gl.setCapability cap true }

/-- The OpenGL call `glDisable`. -/
@[simp]
def glDisable (cap : Capability) : Exec Unit := do
  call (Call.glDisable cap)
  modifyEngine fun s => { s with gl := s.gl.setCapability cap false }

/-- The OpenGL call `glBlendFunc`. -/
@[simp]
def glBlendFunc (src dst : BlendFactor) : Exec Unit := do
  call (Call.glBlendFunc src dst)
  modifyEngine fun s => { s with gl := { s.gl with blendSrc := src, blendDst := dst } }

/-- The OpenGL call `glDepthMask`. -/
@[simp]
def glDepthMask (flag : Bool) : Exec Unit := do
  call (Call.glDepthMask flag)
  modifyEngine fun s => { s with gl := { s.gl with depthMask := flag } }

/-- The OpenGL call `glDepthFunc`. -/
@[simp]
def glDepthFunc (f : DepthFunc) : Exec Unit := do
  call (Call.glDepthFunc f)
  modifyEngine fun s => { s with gl := { s.gl with depthFunc := f } }

/-- Modelled from the spec: the uniform store setter `SetTexture` (declared in
a header, not in `src/`): the named texture slot is overwritten. -/
@[simp]
def SetTexture (name : String) (value : Texture) : Exec Unit := do
  call (Call.SetTexture name value)
  modifyEngine fun s =>
    { s with m_textureMap := fun n => if n = name then some value else s.m_textureMap n }

/-- Modelled from the spec: the uniform store setter `SetVector3f` (declared in
a header, not in `src/`): the named vector slot is overwritten. -/
@[simp]
def SetVector3f (name : String) (value : Vector3f) : Exec Unit := do
  call (Call.SetVector3f name value)
  modifyEngine fun s =>
    { s with m_vector3fMap := fun n => if n = name then some value else s.m_vector3fMap n }

/-- Modelled from the spec: the uniform store setter `SetFloat` (declared in a
header, not in `src/`): the named scalar slot is overwritten. -/
@[simp]
def SetFloat (name : String) (value : ℚ) : Exec Unit := do
  call (Call.SetFloat name value)
  modifyEngine fun s =>
    { s with m_floatMap := fun n => if n = name then some value else s.m_floatMap n }

/-- The callback `object.RenderAll(shader, *this)`. -/
@[simp]
def GameObject.RenderAll (object : GameObject) (shader : Shader) : Exec Unit :=
  call (Call.RenderAll object shader)

/-- The call `shader.Bind()`. -/
@[simp]
def Shader.Bind (shader : Shader) : Exec Unit :=
  call (Call.Shader_Bind shader)

/-- The call `shader.UpdateUniforms(m_planeTransform, m_planeMaterial, *this)`. -/
@[simp]
def Shader.UpdateUniforms (shader : Shader) : Exec Unit :=
  call (Call.Shader_UpdateUniforms shader)

/-- The call `m_plane.Draw()`. -/
@[simp]
def Mesh.Draw : Exec Unit :=
  call Call.Mesh_Draw

/-- The method `GetShader` of a light. -/
def BaseLight.GetShader (light : BaseLight) : Shader := Shader.ofLight light.shader

/-! ## Cameras -/

/-- The call `m_altCamera->SetProjection(p)`. -/
@[simp]
def altCamera_SetProjection (p : Matrix4f) : Exec Unit :=
  modifyEngine fun s => { s with m_altCamera := { s.m_altCamera with projection := p } }

/-- The call `m_altCamera->GetTransform()->SetPos(p)`. -/
@[simp]
def altCamera_SetPos (p : Vector3f) : Exec Unit :=
  modifyEngine fun s => { s with m_altCamera := { s.m_altCamera with pos := p } }

/-- The call `m_altCamera->GetTransform()->SetRot(r)`. -/
@[simp]
def altCamera_SetRot (r : Quaternion) : Exec Unit :=
  modifyEngine fun s => { s with m_altCamera := { s.m_altCamera with rot := r } }

/-- The value of `c->GetTransform().GetTransformedPos()` for a camera
reference; `altPos` is the current position of the auxiliary camera (which has
no parent transform). -/
def CameraRef.GetTransformedPos (c : CameraRef) (altPos : Vector3f) : Vector3f :=
  match c with
  | CameraRef.m_altCamera => altPos
  | CameraRef.scene _ cam => cam.pos

/-- The value of `c->GetTransform().GetTransformedRot()` for a camera
reference; `altRot` is the current rotation of the auxiliary camera. -/
def CameraRef.GetTransformedRot (c : CameraRef) (altRot : Quaternion) : Quaternion :=
  match c with
  | CameraRef.m_altCamera => altRot
  | CameraRef.scene _ cam => cam.rot

/-- The read `m_mainCamera->GetTransform().GetTransformedPos()`. -/
@[simp]
def mainCamera_GetTransformedPos : Exec Vector3f := fun s =>
  Exec.pure (s.m_mainCamera.GetTransformedPos s.m_altCamera.pos) s

/-- The read `m_mainCamera->GetTransform().GetTransformedRot()`. -/
@[simp]
def mainCamera_GetTransformedRot : Exec Quaternion := fun s =>
  Exec.pure (s.m_mainCamera.GetTransformedRot s.m_altCamera.rot) s

/-- Read of the member `m_mainCamera`. -/
@[simp]
def getMainCamera : Exec CameraRef := fun s => Exec.pure s.m_mainCamera s

/-- Assignment to the member `m_mainCamera`. -/
@[simp]
def setMainCamera (c : CameraRef) : Exec Unit :=
  modifyEngine fun s => { s with m_mainCamera := c }

/-- The read `m_shadowMaps[i]`. -/
@[simp]
def shadowMapsAt (i : Int) : Exec Texture := fun s => arrayRead s.m_shadowMaps i s

/-- The read `m_shadowMapTempTargets[i]`. -/
@[simp]
def shadowMapTempTargetsAt (i : Int) : Exec Texture := fun s =>
  arrayRead s.m_shadowMapTempTargets i s

/-! ## The engine -/

/-- Line 60: `int shadowMapSize = 1 << (i + 1)`. -/
def shadowMapSize (i : Nat) : Int := wrapInt (2 ^ (i + 1))

/-- Lines 58-63, left-hand array: the textures stored in `m_shadowMaps`. -/
def shadowMapBank (N : Nat) : List Texture :=
  (List.range N).map fun i => ⟨TextureId.shadowMap i, shadowMapSize i, shadowMapSize i⟩

/-- Lines 58-63, right-hand array: the textures stored in
`m_shadowMapTempTargets`. -/
def shadowMapTempBank (N : Nat) : List Texture :=
  (List.range N).map fun i =>
    ⟨TextureId.shadowMapTempTarget i, shadowMapSize i, shadowMapSize i⟩

/-- Lines 22-66, the constructor: the engine state it leaves, given the window,
the OpenGL state it starts from and the value of the pointer `m_mainCamera`
(which the constructor does not initialise). The auxiliary camera starts at the
origin of its own object, rotated by 180 degrees about the vertical axis. -/
def RenderingEngine.construct (N : Nat) (window : Window) (gl : GLState)
    (mainCamera : CameraRef) : RenderingEngine :=
  { gl := { gl with
      clearColor := (0, 0, 0, 0)
      frontFace := Winding.GL_CW
      cullFace := Face.GL_BACK
      cullFaceEnabled := true
      depthTestEnabled := true
      depthClampEnabled := true }
    m_samplerMap := fun n =>
      if n = "filterTexture" then some 0
      else if n = "shadowMap" then some 3
      else if n = "dispMap" then some 2
      else if n = "normalMap" then some 1
      else if n = "diffuse" then some 0
      else none
    m_textureMap := fun _ => none
    m_vector3fMap := fun n => if n = "ambient" then some ⟨1 / 5, 1 / 5, 1 / 5⟩ else none
    m_floatMap := fun _ => none
    m_tempTarget := ⟨TextureId.tempTarget, window.width, window.height⟩
    m_shadowMaps := shadowMapBank N
    m_shadowMapTempTargets := shadowMapTempBank N
    m_altCamera :=
      { projection := Matrix4f.InitIdentity
        pos := ⟨0, 0, 0⟩
        rot := Quaternion.axisAngle ⟨0, 1, 0⟩ 180 }
    m_mainCamera := mainCamera
    m_activeLight := none
    m_lightMatrix := Matrix4f.InitScale ⟨0, 0, 0⟩ }

/-- Lines 77-105: `RenderingEngine::ApplyFilter`. -/
def RenderingEngine.ApplyFilter (filter : Shader) (source dest : Texture) : Exec Unit := do
  call (Call.ApplyFilter filter source dest)
  assert (source ≠ dest)
  (if dest = Texture.null then
    Window.BindAsRenderTarget
  else
    dest.BindAsRenderTarget)
  SetTexture "filterTexture" source
  altCamera_SetProjection Matrix4f.InitIdentity
  altCamera_SetPos ⟨0, 0, 0⟩
  altCamera_SetRot (Quaternion.axisAngle ⟨0, 1, 0⟩ 180)
  let temp ← getMainCamera
  setMainCamera CameraRef.m_altCamera
  glClear false true
  filter.Bind
  filter.UpdateUniforms
  Mesh.Draw
  setMainCamera temp
  SetTexture "filterTexture" Texture.null

/-- Lines 68-75: `RenderingEngine::BlurShadowMap`. -/
def RenderingEngine.BlurShadowMap (shadowMapIndex : Int) (blurAmount : ℚ) : Exec Unit := do
  SetVector3f "blurScale" ⟨blurAmount / ((← shadowMapsAt shadowMapIndex).width : ℚ), 0, 0⟩
  RenderingEngine.ApplyFilter Shader.m_gausBlurFilter (← shadowMapsAt shadowMapIndex)
    (← shadowMapTempTargetsAt shadowMapIndex)
  SetVector3f "blurScale" ⟨0, blurAmount / ((← shadowMapsAt shadowMapIndex).height : ℚ), 0⟩
  RenderingEngine.ApplyFilter Shader.m_gausBlurFilter (← shadowMapTempTargetsAt shadowMapIndex)
    (← shadowMapsAt shadowMapIndex)

/-- Lines 121-123: the bank index resolved from a light's shadow tier. -/
def resolveShadowMapIndex (shadowInfo : ShadowInfo) : Int :=
  if shadowInfo.shadowMapSizeAsPowerOf2.val ≠ 0 then
    wrapInt (shadowInfo.shadowMapSizeAsPowerOf2.val - 1)
  else 0

/-- Lines 134-167: the branch of the light loop for a light that casts shadows
(shadow-map generation and optional blur). -/
def RenderingEngine.Render.shadowPass (vp : Camera → Matrix4f) (object : GameObject)
    (light : BaseLight) (shadowInfo : ShadowInfo) (shadowMapIndex : Int) : Exec Unit := do
  altCamera_SetProjection shadowInfo.projection
  let shadowCameraTransform :=
    light.CalcShadowCameraTransform (← mainCamera_GetTransformedPos)
      (← mainCamera_GetTransformedRot)
  altCamera_SetPos shadowCameraTransform.pos
  altCamera_SetRot shadowCameraTransform.rot
  modifyEngine fun s => { s with m_lightMatrix := Matrix4f.mul BIAS_MATRIX (vp s.m_altCamera) }
  SetFloat "shadowVarianceMin" shadowInfo.minVariance
  SetFloat "shadowLightBleedingReduction" shadowInfo.lightBleedReductionAmount
  let flipFaces := shadowInfo.flipFaces
  let temp ← getMainCamera
  setMainCamera CameraRef.m_altCamera
  (if flipFaces then glCullFace Face.GL_FRONT else Exec.pure ())
  object.RenderAll Shader.m_shadowMapShader
  (if flipFaces then glCullFace Face.GL_BACK else Exec.pure ())
  setMainCamera temp
  let shadowSoftness := shadowInfo.shadowSoftness
  (if shadowSoftness ≠ 0 then
    RenderingEngine.BlurShadowMap shadowMapIndex shadowSoftness
  else Exec.pure ())

/-- Lines 171-173: the branch of the light loop for a light without shadow. -/
def RenderingEngine.Render.noShadow : Exec Unit := do
  modifyEngine fun s => { s with m_lightMatrix := Matrix4f.InitScale ⟨0, 0, 0⟩ }
  SetFloat "shadowVarianceMin" (2 / 100000)
  SetFloat "shadowLightBleedingReduction" 0

/-- Lines 176-191: the light accumulation pass that ends the loop body. -/
def RenderingEngine.Render.accumulate (object : GameObject) (light : BaseLight) :
    Exec Unit := do
  Window.BindAsRenderTarget
  glEnable Capability.GL_BLEND
  glBlendFunc BlendFactor.GL_ONE BlendFactor.GL_ONE
  glDepthMask false
  glDepthFunc DepthFunc.GL_EQUAL
  object.RenderAll light.GetShader
  glDepthMask true
  glDepthFunc DepthFunc.GL_LESS
  glDisable Capability.GL_BLEND

/-- Lines 118-191: the body of the light loop of `Render`, for one light. -/
def RenderingEngine.Render.light (N : Nat) (vp : Camera → Matrix4f) (object : GameObject)
    (light : BaseLight) : Exec Unit := do
  modifyEngine fun s => { s with m_activeLight := some light }
  let shadowInfo := light.shadowInfo
  let shadowMapIndex := resolveShadowMapIndex shadowInfo
  assert (shadowMapIndex ≥ 0 ∧ shadowMapIndex < (N : Int))
  SetTexture "shadowMap" (← shadowMapsAt shadowMapIndex)
  (← shadowMapsAt shadowMapIndex).BindAsRenderTarget
  glClearColor 0 1 0 0
  glClear true true
  (if shadowInfo.shadowMapSizeAsPowerOf2.val ≠ 0 then
    RenderingEngine.Render.shadowPass vp object light shadowInfo shadowMapIndex
  else
    RenderingEngine.Render.noShadow)
  RenderingEngine.Render.accumulate object light

/-- Lines 116-194: the light loop of `Render`, over the lights in order. -/
def RenderingEngine.Render.lights (N : Nat) (vp : Camera → Matrix4f) (object : GameObject) :
    List BaseLight → Exec Unit
  | [] => Exec.pure ()
  | light :: rest => do
    RenderingEngine.Render.light N vp object light
    RenderingEngine.Render.lights N vp object rest

/-- Lines 109-114: the ambient pass that opens `Render`. -/
def RenderingEngine.Render.ambient (object : GameObject) : Exec Unit := do
  Window.BindAsRenderTarget
  glClearColor 0 0 0 0
  glClear true true
  object.RenderAll Shader.m_defaultShader

/-- Lines 107-195: `RenderingEngine::Render`, with the content of `m_lights`. -/
def RenderingEngine.Render (N : Nat) (vp : Camera → Matrix4f) (m_lights : List BaseLight)
    (object : GameObject) : Exec Unit := do
  RenderingEngine.Render.ambient object
  RenderingEngine.Render.lights N vp object m_lights

/-! ## Observations on states and traces -/

/-- The two bank arrays hold what the constructor stored in them. No code of
the file writes them afterwards, so this holds in every state the engine
reaches (section "The bank is an invariant of the engine"). -/
def BankBuilt (N : Nat) (s : RenderingEngine) : Prop :=
  s.m_shadowMaps = shadowMapBank N ∧ s.m_shadowMapTempTargets = shadowMapTempBank N

/-- The condition of the assertion of line 125 for a light. -/
def InRange (N : Nat) (light : BaseLight) : Prop :=
  0 ≤ resolveShadowMapIndex light.shadowInfo ∧
    resolveShadowMapIndex light.shadowInfo < (N : Int)

instance (N : Nat) (light : BaseLight) : Decidable (InRange N light) :=
  inferInstanceAs (Decidable (_ ∧ _))

/-- The texture is one of the `2 * N` textures of the shadow-map bank. -/
def InBank (N : Nat) (t : Texture) : Prop :=
  t ∈ shadowMapBank N ∨ t ∈ shadowMapTempBank N

/-- The calls of a trace, without the states. -/
def calls (t : List Event) : List Call := t.map Event.call

/-- The shader of a `RenderAll` call. -/
def Call.renderAllShader : Call → Option Shader
  | Call.RenderAll _ shader => some shader
  | _ => none

/-- The shaders of the `RenderAll` invocations of a trace, in order. -/
def renderAllShaders (t : List Event) : List Shader :=
  t.filterMap fun ev => ev.call.renderAllShader

/-- A pass: a `RenderAll` invocation or an entry into `ApplyFilter`. -/
def Call.isPass : Call → Bool
  | Call.RenderAll _ _ => true
  | Call.ApplyFilter _ _ _ => true
  | _ => false

/-- The passes of a trace, in order. -/
def passes (t : List Event) : List Call := (calls t).filter Call.isPass

/-- An entry into `ApplyFilter`. -/
def Call.isApplyFilter : Call → Bool
  | Call.ApplyFilter _ _ _ => true
  | _ => false

/-- The entries into `ApplyFilter` of a trace, with the state at each entry. -/
def filterEntries (t : List Event) : List Event := t.filter fun ev => ev.call.isApplyFilter

/-- The draw of the full-screen quad. -/
def Call.isDraw : Call → Bool
  | Call.Mesh_Draw => true
  | _ => false

/-- The quad draws of a trace, with the state at each draw. -/
def draws (t : List Event) : List Event := t.filter fun ev => ev.call.isDraw

/-- A `RenderAll` invocation with the shader of a light. -/
def Call.isLightPass : Call → Bool
  | Call.RenderAll _ (Shader.ofLight _) => true
  | _ => false

/-- The light accumulation `RenderAll` invocations of a trace, with the state at
each of them. -/
def lightPasses (t : List Event) : List Event := t.filter fun ev => ev.call.isLightPass

/-- The calls issued between the two assignments to `m_mainCamera` of a filter
draw (lines 96-103: depth clear, shader bind, uniform update, quad draw) or of a
shadow-map pass (lines 147-161: culling toggles, `RenderAll` with the
shadow-map shader). -/
def Call.inAltScope : Call → Bool
  | Call.glClear false true => true
  | Call.Shader_Bind _ => true
  | Call.Shader_UpdateUniforms _ => true
  | Call.Mesh_Draw => true
  | Call.glCullFace _ => true
  | Call.RenderAll _ Shader.m_shadowMapShader => true
  | _ => false

/-- At every call of the trace `m_mainCamera` is the camera `c`, or it is the
auxiliary camera and the call lies inside a filter draw or a shadow-map pass. -/
def AltOnlyInScope (c : CameraRef) (t : List Event) : Prop :=
  ∀ ev ∈ t, ev.state.m_mainCamera = c ∨
    (ev.state.m_mainCamera = CameraRef.m_altCamera ∧ ev.call.inAltScope = true)

/-- A call to OpenGL or to a collaborator that issues GPU work: everything the
trace records except the uniform setters and the entry marker. -/
def Call.isGpuCall : Call → Bool
  | Call.SetTexture _ _ => false
  | Call.SetVector3f _ _ => false
  | Call.SetFloat _ _ => false
  | Call.ApplyFilter _ _ _ => false
  | _ => true

/-- The GPU settings that the accumulation pass must see (lines 176-185) and
the camera in use, read from the state of an event. -/
def Event.accumulateView (ev : Event) :
    Call × RenderTarget × Bool × BlendFactor × BlendFactor × Bool × DepthFunc × Face
      × CameraRef :=
  (ev.call, ev.state.gl.renderTarget, ev.state.gl.blendEnabled, ev.state.gl.blendSrc,
    ev.state.gl.blendDst, ev.state.gl.depthMask, ev.state.gl.depthFunc,
    ev.state.gl.cullFace, ev.state.m_mainCamera)

/-- The value that lines 134-140 (tier other than 0) or line 171 (tier 0) give
to `m_lightMatrix` for a light, when the main camera has world position `pos`
and world rotation `rot`. -/
def expectedLightMatrix (vp : Camera → Matrix4f) (pos : Vector3f) (rot : Quaternion)
    (light : BaseLight) : Matrix4f :=
  if light.shadowInfo.shadowMapSizeAsPowerOf2.val ≠ 0 then
    Matrix4f.mul BIAS_MATRIX
      (vp { projection := light.shadowInfo.projection
            pos := (light.CalcShadowCameraTransform pos rot).pos
            rot := (light.CalcShadowCameraTransform pos rot).rot })
  else Matrix4f.InitScale ⟨0, 0, 0⟩

/-! ## Concrete inputs

A small configuration on which the statements below are instantiated. -/

/-- The OpenGL state of a fresh context. -/
def sampleGL : GLState :=
  { renderTarget := RenderTarget.window
    clearColor := (0, 0, 0, 0)
    frontFace := Winding.GL_CCW
    cullFace := Face.GL_BACK
    cullFaceEnabled := false
    depthTestEnabled := false
    depthClampEnabled := false
    blendEnabled := false
    blendSrc := BlendFactor.GL_ONE
    blendDst := BlendFactor.GL_ZERO
    depthMask := true
    depthFunc := DepthFunc.GL_LESS }

/-- A camera of the scene, at the origin. -/
def sampleCamera : Camera :=
  { projection := Matrix4f.InitIdentity
    pos := ⟨0, 0, 0⟩
    rot := Quaternion.mk 0 0 0 1 }

/-- An engine with a bank of `N` shadow maps, as the constructor leaves it for
an 800 x 600 window, with the scene camera as main camera. -/
def sampleEngine (N : Nat) : RenderingEngine :=
  RenderingEngine.construct N ⟨800, 600⟩ sampleGL (CameraRef.scene 1 sampleCamera)

/-- A light with the given shadow tier, softness and face flip; its shadow
camera sits at the main camera. -/
def sampleLight (tier : Fin 32) (softness : ℚ) (flip : Bool) : BaseLight :=
  { shader := 7
    shadowInfo :=
      { shadowMapSizeAsPowerOf2 := ⟨(tier.val : Int), by omega⟩
        projection := Matrix4f.InitIdentity
        shadowSoftness := softness
        minVariance := 2 / 100000
        lightBleedReductionAmount := 1 / 5
        flipFaces := flip }
    CalcShadowCameraTransform := fun pos rot => ⟨pos, rot⟩ }

/-- A stand-in for `Camera::GetViewProjection`: the projection alone. -/
def sampleViewProjection (c : Camera) : Matrix4f := c.projection

/-- A scene object. -/
def sampleObject : GameObject := ⟨0⟩


/-! ## Running code -/

@[simp]
theorem bind_apply {α β : Type} (m : Exec α) (f : α → Exec β) (s : RenderingEngine) :
    (m >>= f) s = Exec.bind m f s := rfl

theorem bind_of_ok {α β : Type} (m : Exec α) (f : α → Exec β) (s : RenderingEngine) (a : α)
    (h : (m s).result = Except.ok a) :
    Exec.bind m f s =
      ⟨(f a (m s).state).result, (f a (m s).state).state,
        (m s).trace ++ (f a (m s).state).trace⟩ := by
  unfold Exec.bind
  rcases hm : m s with ⟨r, s1, t1⟩
  rw [hm] at h
  simp only at h
  subst h
  rfl

theorem bind_of_error {α β : Type} (m : Exec α) (f : α → Exec β) (s : RenderingEngine)
    (e : Fault) (h : (m s).result = Except.error e) :
    Exec.bind m f s = ⟨Except.error e, (m s).state, (m s).trace⟩ := by
  unfold Exec.bind
  rcases hm : m s with ⟨r, s1, t1⟩
  rw [hm] at h
  simp only at h
  subst h
  rfl

theorem returned_iff (r : Run Unit) : r.returned ↔ r.result = Except.ok () := by
  unfold Run.returned
  cases h : r.result <;> simp [Except.isOk, Except.toBool]

theorem wrapInt_eq (x : Int) (h1 : -2147483648 ≤ x) (h2 : x ≤ 2147483647) : wrapInt x = x := by
  unfold wrapInt
  omega

theorem shadowMapSize_eq (i : Nat) (h : i < 30) : shadowMapSize i = 2 ^ (i + 1) := by
  unfold shadowMapSize
  have h1 : (2 : Int) ^ (i + 1) ≤ 2 ^ 30 := by
    apply pow_le_pow_right₀ (by norm_num) (by omega)
  have h2 : (0 : Int) < 2 ^ (i + 1) := by positivity
  apply wrapInt_eq <;> norm_num at h1 ⊢ <;> omega

theorem arrayRead_map (f : Nat → Texture) (N : Nat) (i : Int) (h0 : 0 ≤ i) (hN : i < N) :
    arrayRead ((List.range N).map f) i = Exec.pure (f i.toNat) := by
  have h : i.toNat < N := by omega
  simp [arrayRead, h0, h, List.get?_eq_getElem?]

/-- For a positive tier the index of lines 121-123 is the tier minus one. -/
theorem resolve_of_pos (info : ShadowInfo) (h : 0 < info.shadowMapSizeAsPowerOf2.val) :
    resolveShadowMapIndex info = info.shadowMapSizeAsPowerOf2.val - 1 := by
  have hr := info.shadowMapSizeAsPowerOf2.property
  have hne : info.shadowMapSizeAsPowerOf2.val ≠ 0 := by omega
  simp only [resolveShadowMapIndex, hne, ne_eq, not_false_eq_true, if_true]
  apply wrapInt_eq <;> omega

/-- For tier 0 the index of lines 121-123 is 0. -/
theorem resolve_of_zero (info : ShadowInfo) (h : info.shadowMapSizeAsPowerOf2.val = 0) :
    resolveShadowMapIndex info = 0 := by
  simp [resolveShadowMapIndex, h]

/-! ## One iteration of the light loop -/

/-- The ambient pass: four calls, the window bound, the clear colour reset. -/
theorem ambient_run (obj : GameObject) (s : RenderingEngine) :
    (RenderingEngine.Render.ambient obj s).result = Except.ok () ∧
    (RenderingEngine.Render.ambient obj s).state =
      { s with gl := { s.gl with renderTarget := RenderTarget.window, clearColor := (0, 0, 0, 0) } } ∧
    calls (RenderingEngine.Render.ambient obj s).trace =
      [Call.Window_BindAsRenderTarget, Call.glClearColor 0 0 0 0, Call.glClear true true,
        Call.RenderAll obj Shader.m_defaultShader] ∧
    (∀ ev ∈ (RenderingEngine.Render.ambient obj s).trace,
      ev.state.m_mainCamera = s.m_mainCamera) ∧
    lightPasses (RenderingEngine.Render.ambient obj s).trace = [] := by
  simp [RenderingEngine.Render.ambient, calls, lightPasses, Call.isLightPass]

/-- A light whose index fails the assertion of line 125 stops the run right
after `m_activeLight` is set: nothing is called. -/
theorem light_abort (N : Nat) (vp : Camera → Matrix4f) (obj : GameObject) (l : BaseLight)
    (s : RenderingEngine) (hr : ¬ InRange N l) :
    RenderingEngine.Render.light N vp obj l s =
      ⟨Except.error Fault.assertion, { s with m_activeLight := some l }, []⟩ := by
  have h : ¬ (resolveShadowMapIndex l.shadowInfo ≥ 0 ∧
      resolveShadowMapIndex l.shadowInfo < (N : Int)) := hr
  simp [RenderingEngine.Render.light, h]

set_option maxHeartbeats 1000000 in
/-- What one iteration of the light loop does when its index is in range. -/
theorem light_spec (N : Nat) (vp : Camera → Matrix4f) (obj : GameObject) (l : BaseLight)
    (s : RenderingEngine) (hb : BankBuilt N s) (hr : InRange N l) :
    (RenderingEngine.Render.light N vp obj l s).result = Except.ok () ∧
    BankBuilt N (RenderingEngine.Render.light N vp obj l s).state ∧
    (RenderingEngine.Render.light N vp obj l s).state.m_mainCamera = s.m_mainCamera ∧
    (RenderingEngine.Render.light N vp obj l s).state.gl.blendEnabled = false ∧
    (RenderingEngine.Render.light N vp obj l s).state.gl.depthMask = true ∧
    (RenderingEngine.Render.light N vp obj l s).state.gl.depthFunc = DepthFunc.GL_LESS ∧
    (s.gl.cullFace = Face.GL_BACK →
      (RenderingEngine.Render.light N vp obj l s).state.gl.cullFace = Face.GL_BACK) ∧
    (∀ ev ∈ (RenderingEngine.Render.light N vp obj l s).trace,
      ev.state.m_mainCamera = s.m_mainCamera ∨
        (ev.state.m_mainCamera = CameraRef.m_altCamera ∧ ev.call.inAltScope = true)) ∧
    (s.gl.cullFace = Face.GL_BACK →
      (lightPasses (RenderingEngine.Render.light N vp obj l s).trace).map Event.accumulateView =
      [(Call.RenderAll obj l.GetShader, RenderTarget.window, true, BlendFactor.GL_ONE,
        BlendFactor.GL_ONE, false, DepthFunc.GL_EQUAL, Face.GL_BACK, s.m_mainCamera)]) ∧
    (lightPasses (RenderingEngine.Render.light N vp obj l s).trace).map
        (fun ev => ev.state.m_lightMatrix) =
      [expectedLightMatrix vp (s.m_mainCamera.GetTransformedPos s.m_altCamera.pos)
        (s.m_mainCamera.GetTransformedRot s.m_altCamera.rot) l] := by
  obtain ⟨h0, hN⟩ := hr
  obtain ⟨hb1, hb2⟩ := hb
  by_cases ht : l.shadowInfo.shadowMapSizeAsPowerOf2.val = 0
  · simp [RenderingEngine.Render.light, RenderingEngine.Render.noShadow,
      RenderingEngine.Render.accumulate, BankBuilt, hb1, hb2, shadowMapBank, shadowMapTempBank,
      arrayRead_map, h0, hN, ht]
    simp +contextual [lightPasses, Event.accumulateView, Call.isLightPass,
      BaseLight.GetShader, expectedLightMatrix, ht]
  · by_cases hf : l.shadowInfo.flipFaces = true <;>
    by_cases hs : l.shadowInfo.shadowSoftness = 0 <;>
    simp [RenderingEngine.Render.light, RenderingEngine.Render.shadowPass,
      RenderingEngine.Render.accumulate, RenderingEngine.BlurShadowMap,
      RenderingEngine.ApplyFilter, BankBuilt, hb1, hb2, shadowMapBank, shadowMapTempBank,
      arrayRead_map, h0, hN, ht, hf, hs, Texture.null] <;>
    simp +contextual [lightPasses, Event.accumulateView, Call.isLightPass, Call.inAltScope,
      BaseLight.GetShader, expectedLightMatrix, ht]

/-! ## The light loop -/

theorem lights_nil (N : Nat) (vp : Camera → Matrix4f) (obj : GameObject) (s : RenderingEngine) :
    RenderingEngine.Render.lights N vp obj [] s = ⟨Except.ok (), s, []⟩ := rfl

theorem lights_cons (N : Nat) (vp : Camera → Matrix4f) (obj : GameObject) (l : BaseLight)
    (ls : List BaseLight) (s : RenderingEngine) :
    RenderingEngine.Render.lights N vp obj (l :: ls) s =
      Exec.bind (RenderingEngine.Render.light N vp obj l)
        (fun _ => RenderingEngine.Render.lights N vp obj ls) s := rfl

theorem lights_cons_ok (N : Nat) (vp : Camera → Matrix4f) (obj : GameObject) (l : BaseLight)
    (ls : List BaseLight) (s : RenderingEngine) (hb : BankBuilt N s) (hr : InRange N l) :
    RenderingEngine.Render.lights N vp obj (l :: ls) s =
      ⟨(RenderingEngine.Render.lights N vp obj ls
          (RenderingEngine.Render.light N vp obj l s).state).result,
        (RenderingEngine.Render.lights N vp obj ls
          (RenderingEngine.Render.light N vp obj l s).state).state,
        (RenderingEngine.Render.light N vp obj l s).trace ++
          (RenderingEngine.Render.lights N vp obj ls
            (RenderingEngine.Render.light N vp obj l s).state).trace⟩ := by
  rw [lights_cons]
  exact bind_of_ok _ _ s () (light_spec N vp obj l s hb hr).1

theorem lights_cons_abort (N : Nat) (vp : Camera → Matrix4f) (obj : GameObject) (l : BaseLight)
    (ls : List BaseLight) (s : RenderingEngine) (hr : ¬ InRange N l) :
    RenderingEngine.Render.lights N vp obj (l :: ls) s =
      ⟨Except.error Fault.assertion, { s with m_activeLight := some l }, []⟩ := by
  rw [lights_cons, bind_of_error _ _ s Fault.assertion (by rw [light_abort N vp obj l s hr]),
    light_abort N vp obj l s hr]

/-- The loop returns exactly when every light passes the assertion. -/
theorem lights_returned_iff (N : Nat) (vp : Camera → Matrix4f) (obj : GameObject)
    (ls : List BaseLight) :
    ∀ s : RenderingEngine, BankBuilt N s →
      ((RenderingEngine.Render.lights N vp obj ls s).returned ↔ ∀ l ∈ ls, InRange N l) := by
  induction ls with
  | nil => intro s _; simp [lights_nil, Run.returned, Except.isOk, Except.toBool]
  | cons l ls ih =>
    intro s hb
    by_cases hr : InRange N l
    · rw [lights_cons_ok N vp obj l ls s hb hr]
      have h := ih _ (light_spec N vp obj l s hb hr).2.1
      simp only [Run.returned] at h ⊢
      rw [h]
      simp [hr]
    · rw [lights_cons_abort N vp obj l ls s hr]
      simp [Run.returned, Except.isOk, Except.toBool, hr]

/-- What the light loop does when every light passes the assertion. -/
theorem lights_spec (N : Nat) (vp : Camera → Matrix4f) (obj : GameObject)
    (ls : List BaseLight) :
    ∀ s : RenderingEngine, BankBuilt N s → (∀ l ∈ ls, InRange N l) →
      (RenderingEngine.Render.lights N vp obj ls s).result = Except.ok () ∧
      BankBuilt N (RenderingEngine.Render.lights N vp obj ls s).state ∧
      (RenderingEngine.Render.lights N vp obj ls s).state.m_mainCamera = s.m_mainCamera ∧
      (s.gl.blendEnabled = false →
        (RenderingEngine.Render.lights N vp obj ls s).state.gl.blendEnabled = false) ∧
      (s.gl.depthMask = true →
        (RenderingEngine.Render.lights N vp obj ls s).state.gl.depthMask = true) ∧
      (s.gl.depthFunc = DepthFunc.GL_LESS →
        (RenderingEngine.Render.lights N vp obj ls s).state.gl.depthFunc = DepthFunc.GL_LESS) ∧
      (s.gl.cullFace = Face.GL_BACK →
        (RenderingEngine.Render.lights N vp obj ls s).state.gl.cullFace = Face.GL_BACK) ∧
      (∀ ev ∈ (RenderingEngine.Render.lights N vp obj ls s).trace,
        ev.state.m_mainCamera = s.m_mainCamera ∨
          (ev.state.m_mainCamera = CameraRef.m_altCamera ∧ ev.call.inAltScope = true)) ∧
      (s.gl.cullFace = Face.GL_BACK →
        (lightPasses (RenderingEngine.Render.lights N vp obj ls s).trace).map
            Event.accumulateView =
          ls.map fun l =>
            (Call.RenderAll obj l.GetShader, RenderTarget.window, true, BlendFactor.GL_ONE,
              BlendFactor.GL_ONE, false, DepthFunc.GL_EQUAL, Face.GL_BACK, s.m_mainCamera)) ∧
      (∀ addr cam, s.m_mainCamera = CameraRef.scene addr cam →
        (lightPasses (RenderingEngine.Render.lights N vp obj ls s).trace).map
            (fun ev => ev.state.m_lightMatrix) =
          ls.map (expectedLightMatrix vp cam.pos cam.rot)) := by
  induction ls with
  | nil =>
    intro s hb _
    simp [lights_nil, hb, lightPasses]
  | cons l ls ih =>
    intro s hb hall
    have hr : InRange N l := hall l (List.mem_cons_self _ _)
    obtain ⟨h1, h2, h3, h4, h5, h6, h7, h8, h9, h10⟩ := light_spec N vp obj l s hb hr
    obtain ⟨i1, i2, i3, i4, i5, i6, i7, i8, i9, i10⟩ :=
      ih _ h2 (fun x hx => hall x (List.mem_cons_of_mem _ hx))
    rw [lights_cons_ok N vp obj l ls s hb hr]
    refine ⟨i1, i2, i3.trans h3, fun _ => i4 h4, fun _ => i5 h5, fun _ => i6 h6,
      fun hc => i7 (h7 hc), ?_, ?_, ?_⟩
    · intro ev hev
      rcases List.mem_append.mp hev with h | h
      · exact h8 ev h
      · have := i8 ev h
        rwa [h3] at this
    · intro hc
      simp only [lightPasses, List.filter_append, List.map_append, List.map_cons]
      have e1 := h9 hc
      have e2 := i9 (h7 hc)
      simp only [lightPasses] at e1 e2
      rw [e1, e2, h3]
      rfl
    · intro addr cam hm
      simp only [lightPasses, List.filter_append, List.map_append, List.map_cons]
      have e2 := i10 addr cam (h3.trans hm)
      simp only [lightPasses] at h10 e2
      rw [h10, e2, hm]
      rfl

/-! ## The whole frame -/

theorem Render_run (N : Nat) (vp : Camera → Matrix4f) (ls : List BaseLight) (obj : GameObject)
    (s : RenderingEngine) :
    RenderingEngine.Render N vp ls obj s =
      ⟨(RenderingEngine.Render.lights N vp obj ls
          (RenderingEngine.Render.ambient obj s).state).result,
        (RenderingEngine.Render.lights N vp obj ls
          (RenderingEngine.Render.ambient obj s).state).state,
        (RenderingEngine.Render.ambient obj s).trace ++
          (RenderingEngine.Render.lights N vp obj ls
            (RenderingEngine.Render.ambient obj s).state).trace⟩ := by
  show Exec.bind (RenderingEngine.Render.ambient obj)
    (fun _ => RenderingEngine.Render.lights N vp obj ls) s = _
  exact bind_of_ok _ _ s () (ambient_run obj s).1

theorem ambient_bank (N : Nat) (obj : GameObject) (s : RenderingEngine) (hb : BankBuilt N s) :
    BankBuilt N (RenderingEngine.Render.ambient obj s).state := by
  rw [(ambient_run obj s).2.1]
  exact hb

/-- The call of `Render` returns exactly when every light passes the assertion of
line 125. -/
theorem Render_returned_iff (N : Nat) (vp : Camera → Matrix4f) (ls : List BaseLight)
    (obj : GameObject) (s : RenderingEngine) (hb : BankBuilt N s) :
    (RenderingEngine.Render N vp ls obj s).returned ↔ ∀ l ∈ ls, InRange N l := by
  rw [Render_run]
  exact lights_returned_iff N vp obj ls _ (ambient_bank N obj s hb)

/-- What a frame does when every light passes the assertion. -/
theorem Render_spec (N : Nat) (vp : Camera → Matrix4f) (ls : List BaseLight)
    (obj : GameObject) (s : RenderingEngine) (hb : BankBuilt N s)
    (hall : ∀ l ∈ ls, InRange N l) :
    (RenderingEngine.Render N vp ls obj s).result = Except.ok () ∧
    BankBuilt N (RenderingEngine.Render N vp ls obj s).state ∧
    (RenderingEngine.Render N vp ls obj s).state.m_mainCamera = s.m_mainCamera ∧
    (s.gl.blendEnabled = false →
      (RenderingEngine.Render N vp ls obj s).state.gl.blendEnabled = false) ∧
    (s.gl.depthMask = true →
      (RenderingEngine.Render N vp ls obj s).state.gl.depthMask = true) ∧
    (s.gl.depthFunc = DepthFunc.GL_LESS →
      (RenderingEngine.Render N vp ls obj s).state.gl.depthFunc = DepthFunc.GL_LESS) ∧
    (s.gl.cullFace = Face.GL_BACK →
      (RenderingEngine.Render N vp ls obj s).state.gl.cullFace = Face.GL_BACK) ∧
    AltOnlyInScope s.m_mainCamera (RenderingEngine.Render N vp ls obj s).trace ∧
    (s.gl.cullFace = Face.GL_BACK →
      (lightPasses (RenderingEngine.Render N vp ls obj s).trace).map Event.accumulateView =
        ls.map fun l =>
          (Call.RenderAll obj l.GetShader, RenderTarget.window, true, BlendFactor.GL_ONE,
            BlendFactor.GL_ONE, false, DepthFunc.GL_EQUAL, Face.GL_BACK, s.m_mainCamera)) ∧
    (∀ addr cam, s.m_mainCamera = CameraRef.scene addr cam →
      (lightPasses (RenderingEngine.Render N vp ls obj s).trace).map
          (fun ev => ev.state.m_lightMatrix) =
        ls.map (expectedLightMatrix vp cam.pos cam.rot)) := by
  obtain ⟨_, a2, _, a4, a5⟩ := ambient_run obj s
  have hm : (RenderingEngine.Render.ambient obj s).state.m_mainCamera = s.m_mainCamera := by
    rw [a2]
  have hg1 : (RenderingEngine.Render.ambient obj s).state.gl.blendEnabled = s.gl.blendEnabled := by
    rw [a2]
  have hg2 : (RenderingEngine.Render.ambient obj s).state.gl.depthMask = s.gl.depthMask := by
    rw [a2]
  have hg3 : (RenderingEngine.Render.ambient obj s).state.gl.depthFunc = s.gl.depthFunc := by
    rw [a2]
  have hg4 : (RenderingEngine.Render.ambient obj s).state.gl.cullFace = s.gl.cullFace := by
    rw [a2]
  obtain ⟨i1, i2, i3, i4, i5, i6, i7, i8, i9, i10⟩ :=
    lights_spec N vp obj ls _ (ambient_bank N obj s hb) hall
  rw [Render_run]
  refine ⟨i1, i2, i3.trans hm, fun h => i4 (hg1.trans h), fun h => i5 (hg2.trans h),
    fun h => i6 (hg3.trans h), fun h => i7 (hg4.trans h), ?_, ?_, ?_⟩
  · intro ev hev
    rcases List.mem_append.mp hev with h | h
    · exact Or.inl (a4 ev h)
    · have := i8 ev h
      rwa [hm] at this
  · intro hc
    have e := i9 (hg4.trans hc)
    simp only [lightPasses, List.filter_append, List.map_append] at a5 e ⊢
    rw [a5, e, hm]
    rfl
  · intro addr cam hc
    have e := i10 addr cam (hm.trans hc)
    simp only [lightPasses, List.filter_append, List.map_append] at a5 e ⊢
    rw [a5, e]
    rfl

/-! ## The filter and the blur -/

/-- A filter pass with distinct textures returns, restores `m_mainCamera` and
uses the auxiliary camera only inside its draw. -/
theorem ApplyFilter_spec (filter : Shader) (source dest : Texture) (s : RenderingEngine)
    (h : source ≠ dest) :
    (RenderingEngine.ApplyFilter filter source dest s).result = Except.ok () ∧
    (RenderingEngine.ApplyFilter filter source dest s).state.m_mainCamera = s.m_mainCamera ∧
    AltOnlyInScope s.m_mainCamera (RenderingEngine.ApplyFilter filter source dest s).trace := by
  by_cases hd : dest = Texture.null
  · subst hd
    simp [RenderingEngine.ApplyFilter, h, AltOnlyInScope]
    simp [Call.inAltScope]
  · simp [RenderingEngine.ApplyFilter, h, hd, AltOnlyInScope]
    simp [Call.inAltScope]

/-- A blur of a bank slot returns, restores `m_mainCamera` and uses the
auxiliary camera only inside its two draws. -/
theorem BlurShadowMap_spec (N : Nat) (i : Nat) (amount : ℚ) (s : RenderingEngine)
    (hb : BankBuilt N s) (hi : i < N) :
    (RenderingEngine.BlurShadowMap i amount s).result = Except.ok () ∧
    (RenderingEngine.BlurShadowMap i amount s).state.m_mainCamera = s.m_mainCamera ∧
    AltOnlyInScope s.m_mainCamera (RenderingEngine.BlurShadowMap i amount s).trace ∧
    (RenderingEngine.BlurShadowMap i amount s).state.gl.renderTarget =
      RenderTarget.texture ⟨TextureId.shadowMap i, shadowMapSize i, shadowMapSize i⟩ := by
  obtain ⟨hb1, hb2⟩ := hb
  have h0 : (0 : Int) ≤ (i : Int) := by omega
  have hN : (i : Int) < (N : Int) := by omega
  simp [RenderingEngine.BlurShadowMap, RenderingEngine.ApplyFilter, hb1, hb2, shadowMapBank,
    shadowMapTempBank, arrayRead_map, h0, hN, Texture.null, AltOnlyInScope]
  simp [Call.inAltScope]

/-! ## The bank is an invariant of the engine

The constructor stores the bank and no operation writes it, so `BankBuilt` holds
in every state the engine reaches. -/

theorem BankBuilt_construct (N : Nat) (window : Window) (gl : GLState) (c : CameraRef) :
    BankBuilt N (RenderingEngine.construct N window gl c) := ⟨rfl, rfl⟩

theorem BankBuilt_ApplyFilter (N : Nat) (filter : Shader) (source dest : Texture)
    (s : RenderingEngine) (hb : BankBuilt N s) :
    BankBuilt N (RenderingEngine.ApplyFilter filter source dest s).state := by
  obtain ⟨hb1, hb2⟩ := hb
  by_cases h : source = dest
  · subst h
    simp [RenderingEngine.ApplyFilter, BankBuilt, hb1, hb2]
  · by_cases hd : dest = Texture.null
    · subst hd
      simp [RenderingEngine.ApplyFilter, BankBuilt, hb1, hb2, h]
    · simp [RenderingEngine.ApplyFilter, BankBuilt, hb1, hb2, h, hd]

theorem BankBuilt_BlurShadowMap (N : Nat) (i : Nat) (amount : ℚ) (s : RenderingEngine)
    (hb : BankBuilt N s) (hi : i < N) :
    BankBuilt N (RenderingEngine.BlurShadowMap i amount s).state := by
  obtain ⟨hb1, hb2⟩ := hb
  have h0 : (0 : Int) ≤ (i : Int) := by omega
  have hN : (i : Int) < (N : Int) := by omega
  simp [RenderingEngine.BlurShadowMap, RenderingEngine.ApplyFilter, hb1, hb2, shadowMapBank,
    shadowMapTempBank, arrayRead_map, h0, hN, Texture.null, BankBuilt]

theorem BankBuilt_lights (N : Nat) (vp : Camera → Matrix4f) (obj : GameObject)
    (ls : List BaseLight) :
    ∀ s : RenderingEngine, BankBuilt N s →
      BankBuilt N (RenderingEngine.Render.lights N vp obj ls s).state := by
  induction ls with
  | nil => intro s hb; exact hb
  | cons l ls ih =>
    intro s hb
    by_cases hr : InRange N l
    · rw [lights_cons_ok N vp obj l ls s hb hr]
      exact ih _ (light_spec N vp obj l s hb hr).2.1
    · rw [lights_cons_abort N vp obj l ls s hr]
      exact hb

theorem BankBuilt_Render (N : Nat) (vp : Camera → Matrix4f) (ls : List BaseLight)
    (obj : GameObject) (s : RenderingEngine) (hb : BankBuilt N s) :
    BankBuilt N (RenderingEngine.Render N vp ls obj s).state := by
  rw [Render_run]
  exact BankBuilt_lights N vp obj ls _ (ambient_bank N obj s hb)

/-! ## GPU state and camera across a frame -/

/-- C3: for every list of lights on which `Render` returns (on an engine whose
bank is as the constructor built it), if blending is disabled, depth writes are
enabled, the depth function is "less" and face culling is "back" before the
call, the four settings have the same values when `Render` returns. -/
theorem C3_gpu_state_restored (N : Nat) (vp : Camera → Matrix4f) (lights : List BaseLight)
    (obj : GameObject) (s : RenderingEngine) (hb : BankBuilt N s)
    (hret : (RenderingEngine.Render N vp lights obj s).returned)
    (h1 : s.gl.blendEnabled = false) (h2 : s.gl.depthMask = true)
    (h3 : s.gl.depthFunc = DepthFunc.GL_LESS) (h4 : s.gl.cullFace = Face.GL_BACK) :
    (RenderingEngine.Render N vp lights obj s).state.gl.blendEnabled = false ∧
    (RenderingEngine.Render N vp lights obj s).state.gl.depthMask = true ∧
    (RenderingEngine.Render N vp lights obj s).state.gl.depthFunc = DepthFunc.GL_LESS ∧
    (RenderingEngine.Render N vp lights obj s).state.gl.cullFace = Face.GL_BACK := by
  have hall := (Render_returned_iff N vp lights obj s hb).mp hret
  obtain ⟨_, _, _, r4, r5, r6, r7, _⟩ := Render_spec N vp lights obj s hb hall
  exact ⟨r4 h1, r5 h2, r6 h3, r7 h4⟩

/-- A frame with an unshadowed light, a blurred face-flipping shadow light and
a plain shadow light leaves the four settings as the constructor set them. -/
theorem C3_gpu_state_restored_witness :
    (RenderingEngine.Render 2 sampleViewProjection
        [sampleLight 0 0 false, sampleLight 1 (1 / 2) true, sampleLight 2 0 false]
        sampleObject (sampleEngine 2)).returned ∧
    (RenderingEngine.Render 2 sampleViewProjection
        [sampleLight 0 0 false, sampleLight 1 (1 / 2) true, sampleLight 2 0 false]
        sampleObject (sampleEngine 2)).state.gl.blendEnabled = false ∧
    (RenderingEngine.Render 2 sampleViewProjection
        [sampleLight 0 0 false, sampleLight 1 (1 / 2) true, sampleLight 2 0 false]
        sampleObject (sampleEngine 2)).state.gl.depthMask = true ∧
    (RenderingEngine.Render 2 sampleViewProjection
        [sampleLight 0 0 false, sampleLight 1 (1 / 2) true, sampleLight 2 0 false]
        sampleObject (sampleEngine 2)).state.gl.depthFunc = DepthFunc.GL_LESS ∧
    (RenderingEngine.Render 2 sampleViewProjection
        [sampleLight 0 0 false, sampleLight 1 (1 / 2) true, sampleLight 2 0 false]
        sampleObject (sampleEngine 2)).state.gl.cullFace = Face.GL_BACK :=
  have hret : (RenderingEngine.Render 2 sampleViewProjection
        [sampleLight 0 0 false, sampleLight 1 (1 / 2) true, sampleLight 2 0 false]
        sampleObject (sampleEngine 2)).returned :=
    (Render_returned_iff 2 sampleViewProjection _ sampleObject (sampleEngine 2) ⟨rfl, rfl⟩).mpr
      (by decide)
  ⟨hret, C3_gpu_state_restored 2 sampleViewProjection _ sampleObject (sampleEngine 2)
    ⟨rfl, rfl⟩ hret rfl rfl rfl rfl⟩

/-- C4: on an engine whose bank is as the constructor built it, a call of
`ApplyFilter` with distinct textures, of `BlurShadowMap` with a valid bank
index, or of `Render` that returns, leaves `m_mainCamera` pointing to the camera
it pointed to before the call; at every call issued in between, `m_mainCamera`
is that camera, or it is the auxiliary camera and the call lies inside a filter
draw or a shadow-map pass. -/
theorem C4_main_camera_restored (N : Nat) (vp : Camera → Matrix4f) (s : RenderingEngine)
    (hb : BankBuilt N s) :
    (∀ (filter : Shader) (source dest : Texture), source ≠ dest →
      (RenderingEngine.ApplyFilter filter source dest s).returned ∧
      (RenderingEngine.ApplyFilter filter source dest s).state.m_mainCamera = s.m_mainCamera ∧
      AltOnlyInScope s.m_mainCamera (RenderingEngine.ApplyFilter filter source dest s).trace) ∧
    (∀ (i : Nat) (amount : ℚ), i < N →
      (RenderingEngine.BlurShadowMap i amount s).returned ∧
      (RenderingEngine.BlurShadowMap i amount s).state.m_mainCamera = s.m_mainCamera ∧
      AltOnlyInScope s.m_mainCamera (RenderingEngine.BlurShadowMap i amount s).trace) ∧
    (∀ (lights : List BaseLight) (obj : GameObject),
      (RenderingEngine.Render N vp lights obj s).returned →
      (RenderingEngine.Render N vp lights obj s).state.m_mainCamera = s.m_mainCamera ∧
      AltOnlyInScope s.m_mainCamera (RenderingEngine.Render N vp lights obj s).trace) := by
  refine ⟨?_, ?_, ?_⟩
  · intro filter source dest h
    obtain ⟨a1, a2, a3⟩ := ApplyFilter_spec filter source dest s h
    exact ⟨(returned_iff _).mpr a1, a2, a3⟩
  · intro i amount hi
    obtain ⟨a1, a2, a3, _⟩ := BlurShadowMap_spec N i amount s hb hi
    exact ⟨(returned_iff _).mpr a1, a2, a3⟩
  · intro lights obj hret
    have hall := (Render_returned_iff N vp lights obj s hb).mp hret
    obtain ⟨_, _, r3, _, _, _, _, r8, _⟩ := Render_spec N vp lights obj s hb hall
    exact ⟨r3, r8⟩

/-- On the constructed engine, a filter pass to the window, a blur of slot 1
and a frame with three lights all leave the scene camera as main camera. -/
theorem C4_main_camera_restored_witness :
    BankBuilt 2 (sampleEngine 2) ∧
    (RenderingEngine.ApplyFilter Shader.m_nullFilter (sampleEngine 2).m_tempTarget Texture.null
      (sampleEngine 2)).state.m_mainCamera = CameraRef.scene 1 sampleCamera ∧
    (RenderingEngine.BlurShadowMap 1 (1 / 2) (sampleEngine 2)).state.m_mainCamera =
      CameraRef.scene 1 sampleCamera ∧
    (RenderingEngine.Render 2 sampleViewProjection
        [sampleLight 0 0 false, sampleLight 1 (1 / 2) true, sampleLight 2 0 false]
        sampleObject (sampleEngine 2)).state.m_mainCamera = CameraRef.scene 1 sampleCamera :=
  have h := C4_main_camera_restored 2 sampleViewProjection (sampleEngine 2) ⟨rfl, rfl⟩
  ⟨⟨rfl, rfl⟩,
    (h.1 Shader.m_nullFilter (sampleEngine 2).m_tempTarget Texture.null (by decide)).2.1,
    (h.2.1 1 (1 / 2) (by decide)).2.1,
    (h.2.2 _ sampleObject
      ((Render_returned_iff 2 sampleViewProjection _ sampleObject (sampleEngine 2)
        ⟨rfl, rfl⟩).mpr (by decide))).1⟩

/-! ## The accumulation pass -/

/-- C9: in a `Render` call that returns and is entered with face culling
"back" (on an engine whose bank is as the constructor built it), the
accumulation `RenderAll` invocations are one per light, in the order of the
lights, each with the light's own shader, and at each of them the render
target is the window, blending is enabled with factors (one, one), depth writes
are disabled, the depth function is "equal", face culling is "back" and
`m_mainCamera` is the camera of the entry state; a blur leaves the shadow map of
its slot bound as render target, which the accumulation pass replaces. -/
theorem C9_accumulate_state (N : Nat) (vp : Camera → Matrix4f) (lights : List BaseLight)
    (obj : GameObject) (s : RenderingEngine) (hb : BankBuilt N s)
    (hret : (RenderingEngine.Render N vp lights obj s).returned)
    (hc : s.gl.cullFace = Face.GL_BACK) :
    (lightPasses (RenderingEngine.Render N vp lights obj s).trace).map Event.accumulateView =
      lights.map (fun l =>
        (Call.RenderAll obj l.GetShader, RenderTarget.window, true, BlendFactor.GL_ONE,
          BlendFactor.GL_ONE, false, DepthFunc.GL_EQUAL, Face.GL_BACK, s.m_mainCamera)) ∧
    (∀ (i : Nat) (amount : ℚ), i < N →
      (RenderingEngine.BlurShadowMap i amount s).state.gl.renderTarget =
        RenderTarget.texture ⟨TextureId.shadowMap i, shadowMapSize i, shadowMapSize i⟩) := by
  have hall := (Render_returned_iff N vp lights obj s hb).mp hret
  obtain ⟨_, _, _, _, _, _, _, _, r9, _⟩ := Render_spec N vp lights obj s hb hall
  exact ⟨r9 hc, fun i amount hi => (BlurShadowMap_spec N i amount s hb hi).2.2.2⟩

/-- A frame with an unshadowed light, a blurred face-flipping shadow light and
a plain shadow light has three accumulation passes in the stated GPU state. -/
theorem C9_accumulate_state_witness :
    (RenderingEngine.Render 2 sampleViewProjection
        [sampleLight 0 0 false, sampleLight 1 (1 / 2) true, sampleLight 2 0 false]
        sampleObject (sampleEngine 2)).returned ∧
    (lightPasses (RenderingEngine.Render 2 sampleViewProjection
        [sampleLight 0 0 false, sampleLight 1 (1 / 2) true, sampleLight 2 0 false]
        sampleObject (sampleEngine 2)).trace).map Event.accumulateView =
      [sampleLight 0 0 false, sampleLight 1 (1 / 2) true, sampleLight 2 0 false].map (fun l =>
        (Call.RenderAll sampleObject l.GetShader, RenderTarget.window, true, BlendFactor.GL_ONE,
          BlendFactor.GL_ONE, false, DepthFunc.GL_EQUAL, Face.GL_BACK,
          (sampleEngine 2).m_mainCamera)) :=
  have hret : (RenderingEngine.Render 2 sampleViewProjection
        [sampleLight 0 0 false, sampleLight 1 (1 / 2) true, sampleLight 2 0 false]
        sampleObject (sampleEngine 2)).returned :=
    (Render_returned_iff 2 sampleViewProjection _ sampleObject (sampleEngine 2) ⟨rfl, rfl⟩).mpr
      (by decide)
  ⟨hret, (C9_accumulate_state 2 sampleViewProjection _ sampleObject (sampleEngine 2)
    ⟨rfl, rfl⟩ hret rfl).1⟩

/-- C10: in a `Render` call that returns (on an engine whose bank is as the
constructor built it), with `m_mainCamera` pointing to a scene camera, the
values of `m_lightMatrix` at the accumulation `RenderAll` invocations are, light
by light: for a tier other than 0, `BIAS_MATRIX` times
the view-projection of the auxiliary camera with the light's shadow projection
and the position and rotation that `CalcShadowCameraTransform` returns for the
main camera's world position and rotation (whatever the softness); for tier 0,
`InitScale(0, 0, 0)`. -/
theorem C10_light_matrix (N : Nat) (vp : Camera → Matrix4f) (lights : List BaseLight)
    (obj : GameObject) (s : RenderingEngine) (addr : Nat) (cam : Camera) (hb : BankBuilt N s)
    (hret : (RenderingEngine.Render N vp lights obj s).returned)
    (hm : s.m_mainCamera = CameraRef.scene addr cam) :
    (lightPasses (RenderingEngine.Render N vp lights obj s).trace).map
        (fun ev => ev.state.m_lightMatrix) =
      lights.map (fun l =>
        if l.shadowInfo.shadowMapSizeAsPowerOf2.val ≠ 0 then
          Matrix4f.mul BIAS_MATRIX
            (vp { projection := l.shadowInfo.projection
                  pos := (l.CalcShadowCameraTransform cam.pos cam.rot).pos
                  rot := (l.CalcShadowCameraTransform cam.pos cam.rot).rot })
        else Matrix4f.InitScale ⟨0, 0, 0⟩) := by
  have hall := (Render_returned_iff N vp lights obj s hb).mp hret
  obtain ⟨_, _, _, _, _, _, _, _, _, r10⟩ := Render_spec N vp lights obj s hb hall
  exact r10 addr cam hm

/-- A frame with an unshadowed light between two shadow lights, the first of
them blurred: the three light matrices. -/
theorem C10_light_matrix_witness :
    (RenderingEngine.Render 2 sampleViewProjection
        [sampleLight 1 (1 / 2) true, sampleLight 0 0 false, sampleLight 2 0 false]
        sampleObject (sampleEngine 2)).returned ∧
    (lightPasses (RenderingEngine.Render 2 sampleViewProjection
        [sampleLight 1 (1 / 2) true, sampleLight 0 0 false, sampleLight 2 0 false]
        sampleObject (sampleEngine 2)).trace).map (fun ev => ev.state.m_lightMatrix) =
      [sampleLight 1 (1 / 2) true, sampleLight 0 0 false, sampleLight 2 0 false].map (fun l =>
        if l.shadowInfo.shadowMapSizeAsPowerOf2.val ≠ 0 then
          Matrix4f.mul BIAS_MATRIX
            (sampleViewProjection
              { projection := l.shadowInfo.projection
                pos := (l.CalcShadowCameraTransform sampleCamera.pos sampleCamera.rot).pos
                rot := (l.CalcShadowCameraTransform sampleCamera.pos sampleCamera.rot).rot })
        else Matrix4f.InitScale ⟨0, 0, 0⟩) :=
  have hret : (RenderingEngine.Render 2 sampleViewProjection
        [sampleLight 1 (1 / 2) true, sampleLight 0 0 false, sampleLight 2 0 false]
        sampleObject (sampleEngine 2)).returned :=
    (Render_returned_iff 2 sampleViewProjection _ sampleObject (sampleEngine 2) ⟨rfl, rfl⟩).mpr
      (by decide)
  ⟨hret, C10_light_matrix 2 sampleViewProjection _ sampleObject (sampleEngine 2) 1 sampleCamera
    ⟨rfl, rfl⟩ hret rfl⟩

/-! ## The bounds assertion -/

theorem lights_append_abort (N : Nat) (vp : Camera → Matrix4f) (obj : GameObject)
    (l : BaseLight) (post : List BaseLight) (hr : ¬ InRange N l) (pre : List BaseLight) :
    ∀ s : RenderingEngine, BankBuilt N s → (∀ x ∈ pre, InRange N x) →
      RenderingEngine.Render.lights N vp obj (pre ++ l :: post) s =
        ⟨Except.error Fault.assertion,
          { (RenderingEngine.Render.lights N vp obj pre s).state with m_activeLight := some l },
          (RenderingEngine.Render.lights N vp obj pre s).trace⟩ := by
  induction pre with
  | nil =>
    intro s _ _
    rw [List.nil_append, lights_cons_abort N vp obj l post s hr, lights_nil]
  | cons x pre ih =>
    intro s hb hall
    have hx : InRange N x := hall x (List.mem_cons_self _ _)
    rw [List.cons_append, lights_cons_ok N vp obj x _ s hb hx,
      lights_cons_ok N vp obj x pre s hb hx,
      ih _ (light_spec N vp obj x s hb hx).2.1 (fun y hy => hall y (List.mem_cons_of_mem _ hy))]

/-- C7: for a light with tier `t > 0` the bank index that `Render` resolves is
`t - 1`, and it lies in `[0, N)` exactly when `t ≤ N`; on an engine whose bank is
as the constructor built it, a frame whose lights all have their index in
`[0, N)` returns; a light whose index is outside `[0, N)`
stops `Render` at the assertion: the trace is the trace of the frame for the
lights before it (no call at all for that light) and the state is the state
after those lights with `m_activeLight` set to the light. -/
theorem C7_bank_index (N : Nat) (vp : Camera → Matrix4f) (obj : GameObject)
    (pre : List BaseLight) (l : BaseLight) (post : List BaseLight) (s : RenderingEngine)
    (hb : BankBuilt N s) (hpre : ∀ x ∈ pre, InRange N x) :
    (0 < l.shadowInfo.shadowMapSizeAsPowerOf2.val →
      resolveShadowMapIndex l.shadowInfo = l.shadowInfo.shadowMapSizeAsPowerOf2.val - 1 ∧
      (InRange N l ↔ l.shadowInfo.shadowMapSizeAsPowerOf2.val ≤ (N : Int))) ∧
    (InRange N l → (RenderingEngine.Render N vp (pre ++ [l]) obj s).returned) ∧
    (¬ InRange N l →
      RenderingEngine.Render N vp (pre ++ l :: post) obj s =
        ⟨Except.error Fault.assertion,
          { (RenderingEngine.Render N vp pre obj s).state with m_activeLight := some l },
          (RenderingEngine.Render N vp pre obj s).trace⟩) := by
  refine ⟨?_, ?_, ?_⟩
  · intro ht
    have hres := resolve_of_pos l.shadowInfo ht
    refine ⟨hres, ?_⟩
    unfold InRange
    rw [hres]
    omega
  · intro hr
    apply (Render_returned_iff N vp _ obj s hb).mpr
    intro x hx
    rcases List.mem_append.mp hx with h | h
    · exact hpre x h
    · rw [List.mem_singleton.mp h]
      exact hr
  · intro hr
    rw [Render_run, Render_run,
      lights_append_abort N vp obj l post hr pre _ (ambient_bank N obj s hb) hpre]

/-- With a bank of two shadow maps, a light of tier 5 after a light of tier 1
stops the frame: only the ambient pass and the first light are traced. -/
theorem C7_bank_index_witness :
    BankBuilt 2 (sampleEngine 2) ∧
    (∀ x ∈ [sampleLight 1 0 false], InRange 2 x) ∧
    resolveShadowMapIndex (sampleLight 5 0 false).shadowInfo = 4 ∧
    ¬ InRange 2 (sampleLight 5 0 false) ∧
    RenderingEngine.Render 2 sampleViewProjection
        ([sampleLight 1 0 false] ++ sampleLight 5 0 false :: [sampleLight 0 0 false])
        sampleObject (sampleEngine 2) =
      ⟨Except.error Fault.assertion,
        { (RenderingEngine.Render 2 sampleViewProjection [sampleLight 1 0 false] sampleObject
            (sampleEngine 2)).state with m_activeLight := some (sampleLight 5 0 false) },
        (RenderingEngine.Render 2 sampleViewProjection [sampleLight 1 0 false] sampleObject
          (sampleEngine 2)).trace⟩ :=
  have h := C7_bank_index 2 sampleViewProjection sampleObject [sampleLight 1 0 false]
    (sampleLight 5 0 false) [sampleLight 0 0 false] (sampleEngine 2) ⟨rfl, rfl⟩ (by decide)
  ⟨⟨rfl, rfl⟩, by decide, (h.1 (by decide)).1, by decide, h.2.2 (by decide)⟩

/-! ## The filter precondition -/

/-- C5: `ApplyFilter(shader, X, X)` stops at the assertion of line 79: the state
(uniform store, auxiliary camera, `m_mainCamera`, GPU state) is unchanged and the
trace holds the entry into `ApplyFilter` only, so no render target is bound,
nothing is cleared, no shader is bound and the quad is not drawn. -/
theorem C5_same_texture_aborts (filter : Shader) (X : Texture) (s : RenderingEngine) :
    (RenderingEngine.ApplyFilter filter X X s).result = Except.error Fault.assertion ∧
    (RenderingEngine.ApplyFilter filter X X s).state = s ∧
    calls (RenderingEngine.ApplyFilter filter X X s).trace = [Call.ApplyFilter filter X X] ∧
    (∀ ev ∈ (RenderingEngine.ApplyFilter filter X X s).trace, ev.call.isGpuCall = false) := by
  simp [RenderingEngine.ApplyFilter, calls, Call.isGpuCall]

/-! ## The bias matrix -/

/-- C8: `BIAS_MATRIX` has 0.5 on the first three diagonal entries, 0.5 in the
first three entries of the translation column and last row (0, 0, 0, 1); it
sends (-1, -1, -1) to (0, 0, 0) and (1, 1, 1) to (1, 1, 1), and every point of
the cube [-1, 1]^3 into [0, 1]^3. -/
theorem C8_bias_matrix :
    BIAS_MATRIX = !![1 / 2, 0, 0, 1 / 2; 0, 1 / 2, 0, 1 / 2; 0, 0, 1 / 2, 1 / 2; 0, 0, 0, 1] ∧
    BIAS_MATRIX.Transform ⟨-1, -1, -1⟩ = ⟨0, 0, 0⟩ ∧
    BIAS_MATRIX.Transform ⟨1, 1, 1⟩ = ⟨1, 1, 1⟩ ∧
    (∀ p : Vector3f, -1 ≤ p.x → p.x ≤ 1 → -1 ≤ p.y → p.y ≤ 1 → -1 ≤ p.z → p.z ≤ 1 →
      (0 ≤ (BIAS_MATRIX.Transform p).x ∧ (BIAS_MATRIX.Transform p).x ≤ 1) ∧
      (0 ≤ (BIAS_MATRIX.Transform p).y ∧ (BIAS_MATRIX.Transform p).y ≤ 1) ∧
      (0 ≤ (BIAS_MATRIX.Transform p).z ∧ (BIAS_MATRIX.Transform p).z ≤ 1)) := by
  have hB : BIAS_MATRIX =
      !![1 / 2, 0, 0, 1 / 2; 0, 1 / 2, 0, 1 / 2; 0, 0, 1 / 2, 1 / 2; 0, 0, 0, 1] := by
    ext i j
    fin_cases i <;> fin_cases j <;>
    simp [BIAS_MATRIX, Matrix4f.mul, Matrix4f.InitScale, Matrix4f.InitTranslation,
      Matrix.mul_apply, Fin.sum_univ_four, Matrix.vecHead, Matrix.vecTail]
  refine ⟨hB, ?_, ?_, ?_⟩
  · rw [hB]
    norm_num [Matrix4f.Transform, Matrix.vecHead, Matrix.vecTail]
  · rw [hB]
    norm_num [Matrix4f.Transform, Matrix.vecHead, Matrix.vecTail]
  · intro p h1 h2 h3 h4 h5 h6
    rw [hB]
    simp [Matrix4f.Transform, Matrix.vecHead, Matrix.vecTail]
    refine ⟨⟨?_, ?_⟩, ⟨?_, ?_⟩, ⟨?_, ?_⟩⟩ <;> linarith

/-! ## Frames with a single light -/

/-- The calls of a frame with one light of tier 0, in order. -/
theorem unshadowed_frame_calls (N : Nat) (vp : Camera → Matrix4f) (obj : GameObject)
    (l : BaseLight) (s : RenderingEngine) (hb : BankBuilt N s) (hN : 0 < N)
    (ht : l.shadowInfo.shadowMapSizeAsPowerOf2.val = 0) :
    (RenderingEngine.Render N vp [l] obj s).result = Except.ok () ∧
    calls (RenderingEngine.Render N vp [l] obj s).trace =
      [Call.Window_BindAsRenderTarget, Call.glClearColor 0 0 0 0, Call.glClear true true,
        Call.RenderAll obj Shader.m_defaultShader,
        Call.SetTexture "shadowMap" ⟨TextureId.shadowMap 0, 2, 2⟩,
        Call.Texture_BindAsRenderTarget ⟨TextureId.shadowMap 0, 2, 2⟩,
        Call.glClearColor 0 1 0 0, Call.glClear true true,
        Call.SetFloat "shadowVarianceMin" (2 / 100000),
        Call.SetFloat "shadowLightBleedingReduction" 0,
        Call.Window_BindAsRenderTarget, Call.glEnable Capability.GL_BLEND,
        Call.glBlendFunc BlendFactor.GL_ONE BlendFactor.GL_ONE, Call.glDepthMask false,
        Call.glDepthFunc DepthFunc.GL_EQUAL, Call.RenderAll obj l.GetShader,
        Call.glDepthMask true, Call.glDepthFunc DepthFunc.GL_LESS,
        Call.glDisable Capability.GL_BLEND] := by
  obtain ⟨hb1, hb2⟩ := hb
  have hres := resolve_of_zero l.shadowInfo ht
  have hN' : (0 : Int) < (N : Int) := by omega
  have hsz : shadowMapSize 0 = 2 := by decide
  simp [RenderingEngine.Render, RenderingEngine.Render.ambient, RenderingEngine.Render.lights,
    RenderingEngine.Render.light, RenderingEngine.Render.noShadow,
    RenderingEngine.Render.accumulate, hb1, hb2, shadowMapBank, shadowMapTempBank,
    arrayRead_map, hres, hN', ht, calls, hsz]

/-- C1 (as amended): with a bank of at least one shadow map, as the constructor
built it, `Render` called
with exactly one light of tier 0 returns after invoking `RenderAll` exactly
twice, first with the ambient shader and then with the light's own shader; it
runs no shadow-map pass and no filter, and it does bind one texture of the
bank, `m_shadowMaps[0]`: once as the "shadowMap" sampler texture and once as
render target, which it clears, before the accumulation pass rebinds the
window. -/
theorem C1_unshadowed_light_frame (N : Nat) (vp : Camera → Matrix4f) (obj : GameObject)
    (l : BaseLight) (s : RenderingEngine) (hb : BankBuilt N s) (hN : 0 < N)
    (ht : l.shadowInfo.shadowMapSizeAsPowerOf2.val = 0) :
    (RenderingEngine.Render N vp [l] obj s).returned ∧
    renderAllShaders (RenderingEngine.Render N vp [l] obj s).trace =
      [Shader.m_defaultShader, l.GetShader] ∧
    passes (RenderingEngine.Render N vp [l] obj s).trace =
      [Call.RenderAll obj Shader.m_defaultShader, Call.RenderAll obj l.GetShader] ∧
    calls (RenderingEngine.Render N vp [l] obj s).trace =
      [Call.Window_BindAsRenderTarget, Call.glClearColor 0 0 0 0, Call.glClear true true,
        Call.RenderAll obj Shader.m_defaultShader,
        Call.SetTexture "shadowMap" ⟨TextureId.shadowMap 0, 2, 2⟩,
        Call.Texture_BindAsRenderTarget ⟨TextureId.shadowMap 0, 2, 2⟩,
        Call.glClearColor 0 1 0 0, Call.glClear true true,
        Call.SetFloat "shadowVarianceMin" (2 / 100000),
        Call.SetFloat "shadowLightBleedingReduction" 0,
        Call.Window_BindAsRenderTarget, Call.glEnable Capability.GL_BLEND,
        Call.glBlendFunc BlendFactor.GL_ONE BlendFactor.GL_ONE, Call.glDepthMask false,
        Call.glDepthFunc DepthFunc.GL_EQUAL, Call.RenderAll obj l.GetShader,
        Call.glDepthMask true, Call.glDepthFunc DepthFunc.GL_LESS,
        Call.glDisable Capability.GL_BLEND] := by
  obtain ⟨h1, h2⟩ := unshadowed_frame_calls N vp obj l s hb hN ht
  have h3 : renderAllShaders (RenderingEngine.Render N vp [l] obj s).trace =
      (calls (RenderingEngine.Render N vp [l] obj s).trace).filterMap Call.renderAllShader := by
    simp [renderAllShaders, calls, List.filterMap_map, Function.comp_def]
  refine ⟨(returned_iff _).mpr h1, ?_, ?_, h2⟩
  · rw [h3, h2]
    simp [Call.renderAllShader]
  · rw [passes, h2]
    simp [Call.isPass]

/-- The frame of the constructed engine with one light of tier 0. -/
theorem C1_unshadowed_light_frame_witness :
    BankBuilt 2 (sampleEngine 2) ∧
    renderAllShaders (RenderingEngine.Render 2 sampleViewProjection [sampleLight 0 0 false]
        sampleObject (sampleEngine 2)).trace =
      [Shader.m_defaultShader, Shader.ofLight 7] :=
  ⟨⟨rfl, rfl⟩, (C1_unshadowed_light_frame 2 sampleViewProjection sampleObject
    (sampleLight 0 0 false) (sampleEngine 2) ⟨rfl, rfl⟩ (by decide) rfl).2.1⟩

/-- C1 as stated fails: in the frame of the constructed engine with one light
of tier 0, `RenderAll` is invoked twice but a texture of the bank is bound, both
as the "shadowMap" sampler texture and as render target. -/
theorem C1_counterexample :
    ¬ (renderAllShaders (RenderingEngine.Render 2 sampleViewProjection [sampleLight 0 0 false]
          sampleObject (sampleEngine 2)).trace = [Shader.m_defaultShader, Shader.ofLight 7] ∧
        ∀ ev ∈ (RenderingEngine.Render 2 sampleViewProjection [sampleLight 0 0 false]
          sampleObject (sampleEngine 2)).trace,
          ∀ t : Texture, InBank 2 t →
            ev.call ≠ Call.SetTexture "shadowMap" t ∧
            ev.call ≠ Call.Texture_BindAsRenderTarget t) := by
  rintro ⟨_, h⟩
  have hc := (unshadowed_frame_calls 2 sampleViewProjection sampleObject
    (sampleLight 0 0 false) (sampleEngine 2) ⟨rfl, rfl⟩ (by decide) rfl).2
  have hmem : Call.SetTexture "shadowMap" ⟨TextureId.shadowMap 0, 2, 2⟩ ∈
      calls (RenderingEngine.Render 2 sampleViewProjection [sampleLight 0 0 false]
        sampleObject (sampleEngine 2)).trace := by
    rw [hc]
    simp
  obtain ⟨ev, hev, hcall⟩ := List.mem_map.mp hmem
  have hbank : InBank 2 ⟨TextureId.shadowMap 0, 2, 2⟩ := Or.inl (by decide)
  exact (h ev hev _ hbank).1 hcall

set_option maxHeartbeats 1000000 in
/-- C2: with a bank as the constructor built it that holds tier `t`
(`1 ≤ t ≤ N`), `Render` called with one
shadow-casting light of tier `t` returns after exactly three `RenderAll`
invocations, with the ambient shader, the shadow-map generator shader and the
light's shader in this order; it enters `ApplyFilter` 0 times when the softness
is 0 and exactly 2 times otherwise, both with the gaussian-blur shader (shadow
map to temp map, then temp map to shadow map) and both between the shadow pass
and the accumulation pass. -/
theorem C2_shadow_light_frame (N : Nat) (vp : Camera → Matrix4f) (obj : GameObject)
    (l : BaseLight) (s : RenderingEngine) (hb : BankBuilt N s)
    (h1 : 1 ≤ l.shadowInfo.shadowMapSizeAsPowerOf2.val)
    (hN : l.shadowInfo.shadowMapSizeAsPowerOf2.val ≤ (N : Int)) :
    (RenderingEngine.Render N vp [l] obj s).returned ∧
    renderAllShaders (RenderingEngine.Render N vp [l] obj s).trace =
      [Shader.m_defaultShader, Shader.m_shadowMapShader, l.GetShader] ∧
    passes (RenderingEngine.Render N vp [l] obj s).trace =
      [Call.RenderAll obj Shader.m_defaultShader, Call.RenderAll obj Shader.m_shadowMapShader]
        ++ (if l.shadowInfo.shadowSoftness = 0 then []
            else
              [Call.ApplyFilter Shader.m_gausBlurFilter
                  ⟨TextureId.shadowMap (l.shadowInfo.shadowMapSizeAsPowerOf2.val - 1).toNat,
                    shadowMapSize (l.shadowInfo.shadowMapSizeAsPowerOf2.val - 1).toNat,
                    shadowMapSize (l.shadowInfo.shadowMapSizeAsPowerOf2.val - 1).toNat⟩
                  ⟨TextureId.shadowMapTempTarget
                      (l.shadowInfo.shadowMapSizeAsPowerOf2.val - 1).toNat,
                    shadowMapSize (l.shadowInfo.shadowMapSizeAsPowerOf2.val - 1).toNat,
                    shadowMapSize (l.shadowInfo.shadowMapSizeAsPowerOf2.val - 1).toNat⟩,
                Call.ApplyFilter Shader.m_gausBlurFilter
                  ⟨TextureId.shadowMapTempTarget
                      (l.shadowInfo.shadowMapSizeAsPowerOf2.val - 1).toNat,
                    shadowMapSize (l.shadowInfo.shadowMapSizeAsPowerOf2.val - 1).toNat,
                    shadowMapSize (l.shadowInfo.shadowMapSizeAsPowerOf2.val - 1).toNat⟩
                  ⟨TextureId.shadowMap (l.shadowInfo.shadowMapSizeAsPowerOf2.val - 1).toNat,
                    shadowMapSize (l.shadowInfo.shadowMapSizeAsPowerOf2.val - 1).toNat,
                    shadowMapSize (l.shadowInfo.shadowMapSizeAsPowerOf2.val - 1).toNat⟩])
        ++ [Call.RenderAll obj l.GetShader] ∧
    (filterEntries (RenderingEngine.Render N vp [l] obj s).trace).length =
      (if l.shadowInfo.shadowSoftness = 0 then 0 else 2) := by
  obtain ⟨hb1, hb2⟩ := hb
  have hres := resolve_of_pos l.shadowInfo (by omega)
  have h0 : 0 ≤ resolveShadowMapIndex l.shadowInfo := by omega
  have hlt : resolveShadowMapIndex l.shadowInfo < (N : Int) := by omega
  have ht : ¬ l.shadowInfo.shadowMapSizeAsPowerOf2.val = 0 := by omega
  rw [← hres]
  by_cases hf : l.shadowInfo.flipFaces = true <;>
  by_cases hs : l.shadowInfo.shadowSoftness = 0 <;>
  simp [RenderingEngine.Render, RenderingEngine.Render.ambient, RenderingEngine.Render.lights,
    RenderingEngine.Render.light, RenderingEngine.Render.shadowPass,
    RenderingEngine.Render.accumulate, RenderingEngine.BlurShadowMap,
    RenderingEngine.ApplyFilter, hb1, hb2, shadowMapBank, shadowMapTempBank,
    arrayRead_map, h0, hlt, ht, hf, hs, Texture.null, Run.returned, Except.isOk,
    Except.toBool, renderAllShaders, passes, calls, filterEntries] <;>
  simp [Call.renderAllShader, Call.isPass, Call.isApplyFilter]

/-- Two frames of the constructed engine with one light of tier 1: without
softness no filter runs, with softness 1/2 the filter runs twice. -/
theorem C2_shadow_light_frame_witness :
    BankBuilt 2 (sampleEngine 2) ∧
    (filterEntries (RenderingEngine.Render 2 sampleViewProjection [sampleLight 1 0 false]
      sampleObject (sampleEngine 2)).trace).length = 0 ∧
    (filterEntries (RenderingEngine.Render 2 sampleViewProjection [sampleLight 1 (1 / 2) true]
      sampleObject (sampleEngine 2)).trace).length = 2 ∧
    renderAllShaders (RenderingEngine.Render 2 sampleViewProjection
        [sampleLight 1 (1 / 2) true] sampleObject (sampleEngine 2)).trace =
      [Shader.m_defaultShader, Shader.m_shadowMapShader, Shader.ofLight 7] :=
  ⟨⟨rfl, rfl⟩,
    (C2_shadow_light_frame 2 sampleViewProjection sampleObject (sampleLight 1 0 false)
      (sampleEngine 2) ⟨rfl, rfl⟩ (by decide) (by decide)).2.2.2,
    ((C2_shadow_light_frame 2 sampleViewProjection sampleObject (sampleLight 1 (1 / 2) true)
      (sampleEngine 2) ⟨rfl, rfl⟩ (by decide) (by decide)).2.2.2).trans
        (if_neg (by unfold sampleLight; norm_num)),
    (C2_shadow_light_frame 2 sampleViewProjection sampleObject (sampleLight 1 (1 / 2) true)
      (sampleEngine 2) ⟨rfl, rfl⟩ (by decide) (by decide)).2.1⟩

/-! ## The blur -/

/-- C6: on a bank as the constructor built it and for a valid bank index `i`
(whose size `1 << (i + 1)` fits in `int`, `i < 30`), `BlurShadowMap(i, amount)` returns after exactly two entries into
`ApplyFilter`, both with the gaussian-blur shader: the first with "blurScale"
equal to `(amount / 2^(i+1), 0, 0)`, source shadow map `i` and destination temp
map `i`; the second with "blurScale" equal to `(0, amount / 2^(i+1), 0)`, source
temp map `i` and destination shadow map `i`; both maps are `2^(i+1)` wide and
high. The two quad draws see the same values: the first writes temp map `i`
sampling shadow map `i`, the last writes shadow map `i` sampling temp map `i`. -/
theorem C6_blur_passes (N : Nat) (i : Nat) (amount : ℚ) (s : RenderingEngine)
    (hb : BankBuilt N s) (hi : i < N) (h30 : i < 30) :
    (RenderingEngine.BlurShadowMap i amount s).returned ∧
    (filterEntries (RenderingEngine.BlurShadowMap i amount s).trace).map
        (fun ev => (ev.call, ev.state.m_vector3fMap "blurScale")) =
      [(Call.ApplyFilter Shader.m_gausBlurFilter
          ⟨TextureId.shadowMap i, 2 ^ (i + 1), 2 ^ (i + 1)⟩
          ⟨TextureId.shadowMapTempTarget i, 2 ^ (i + 1), 2 ^ (i + 1)⟩,
        some ⟨amount / 2 ^ (i + 1), 0, 0⟩),
       (Call.ApplyFilter Shader.m_gausBlurFilter
          ⟨TextureId.shadowMapTempTarget i, 2 ^ (i + 1), 2 ^ (i + 1)⟩
          ⟨TextureId.shadowMap i, 2 ^ (i + 1), 2 ^ (i + 1)⟩,
        some ⟨0, amount / 2 ^ (i + 1), 0⟩)] ∧
    (draws (RenderingEngine.BlurShadowMap i amount s).trace).map
        (fun ev => (ev.state.gl.renderTarget, ev.state.m_textureMap "filterTexture",
          ev.state.m_vector3fMap "blurScale")) =
      [(RenderTarget.texture ⟨TextureId.shadowMapTempTarget i, 2 ^ (i + 1), 2 ^ (i + 1)⟩,
        some ⟨TextureId.shadowMap i, 2 ^ (i + 1), 2 ^ (i + 1)⟩,
        some ⟨amount / 2 ^ (i + 1), 0, 0⟩),
       (RenderTarget.texture ⟨TextureId.shadowMap i, 2 ^ (i + 1), 2 ^ (i + 1)⟩,
        some ⟨TextureId.shadowMapTempTarget i, 2 ^ (i + 1), 2 ^ (i + 1)⟩,
        some ⟨0, amount / 2 ^ (i + 1), 0⟩)] := by
  obtain ⟨hb1, hb2⟩ := hb
  have h0 : (0 : Int) ≤ (i : Int) := by omega
  have hlt : (i : Int) < (N : Int) := by omega
  have hsz : shadowMapSize i = 2 ^ (i + 1) := shadowMapSize_eq i h30
  simp [RenderingEngine.BlurShadowMap, RenderingEngine.ApplyFilter, hb1, hb2, shadowMapBank,
    shadowMapTempBank, arrayRead_map, h0, hlt, Texture.null, Run.returned, Except.isOk,
    Except.toBool, filterEntries, draws]
  simp [Call.isApplyFilter, Call.isDraw, hsz]

/-- The blur of slot 1 of the constructed engine with amount 1/2: maps of size
4, scales 1/8. -/
theorem C6_blur_passes_witness :
    BankBuilt 2 (sampleEngine 2) ∧
    (filterEntries (RenderingEngine.BlurShadowMap 1 (1 / 2) (sampleEngine 2)).trace).map
        (fun ev => (ev.call, ev.state.m_vector3fMap "blurScale")) =
      [(Call.ApplyFilter Shader.m_gausBlurFilter
          ⟨TextureId.shadowMap 1, 2 ^ (1 + 1), 2 ^ (1 + 1)⟩
          ⟨TextureId.shadowMapTempTarget 1, 2 ^ (1 + 1), 2 ^ (1 + 1)⟩,
        some ⟨(1 / 2) / 2 ^ (1 + 1), 0, 0⟩),
       (Call.ApplyFilter Shader.m_gausBlurFilter
          ⟨TextureId.shadowMapTempTarget 1, 2 ^ (1 + 1), 2 ^ (1 + 1)⟩
          ⟨TextureId.shadowMap 1, 2 ^ (1 + 1), 2 ^ (1 + 1)⟩,
        some ⟨0, (1 / 2) / 2 ^ (1 + 1), 0⟩)] :=
  ⟨⟨rfl, rfl⟩, (C6_blur_passes 2 1 (1 / 2) (sampleEngine 2) ⟨rfl, rfl⟩ (by decide)
    (by decide)).2.1⟩

end Engine3D
